import Mathlib

/-!
Verification of the LandscapeChange_GeoTools attribute-enrichment and export
pipeline (src/toolbox). The Python sources are shallowly embedded: pandas
dataframes become lists of rows (association lists from field name to cell),
feature classes become lists of patch records, and each arcpy/pandas operation
used by the toolbox is modelled by a pure Lean function following the source
line by line.
-/

namespace LandscapeChange

/- ===================================================================
   Tabular model for expPatchesFunctions.py (export validation).
   A dataframe cell is null (None / pd.NA), a text value, or an integer
   value.  A row is an association list from field name to cell; a field
   absent from the list reads as null, matching extract_data, which fills
   fields missing from the feature class with pd.NA.
   =================================================================== -/

inductive Cell where
  | null : Cell
  | str (s : String) : Cell
  | int (n : Int) : Cell
deriving DecidableEq, Repr

abbrev Row := List (String × Cell)

def getField (r : Row) (f : String) : Cell :=
  match r.find? (fun kv => kv.1 = f) with
  | some kv => kv.2
  | none => Cell.null

def isNA (c : Cell) : Bool :=
  c = Cell.null

/- clean_data: zeros in Confidence/DistYear and single spaces in the five
   text event fields become null, and carriage returns / line feeds in any
   text cell are flattened to spaces (the `replace(r'[\r\n]', ' ')` call). -/

def cleanZero (c : Cell) : Cell :=
  if c = Cell.int 0 then Cell.null else c

def cleanSpace (c : Cell) : Cell :=
  if c = Cell.str " " then Cell.null else c

def stripNewlines (c : Cell) : Cell :=
  match c with
  | Cell.str s =>
      Cell.str (String.mk (s.data.map (fun ch => if ch = '\r' ∨ ch = '\n' then ' ' else ch)))
  | c => c

def zeroFields : List String := ["Confidence", "DistYear"]

def spaceFields : List String := ["EventType", "ChangeType", "AltType", "ChangeDesc", "DistName"]

def cleanRow (r : Row) : Row :=
  r.map (fun kv =>
    let c := if kv.1 ∈ zeroFields then cleanZero kv.2 else kv.2
    let c := if kv.1 ∈ spaceFields then cleanSpace c else c
    (kv.1, stripNewlines c))

def clean_data (df : List Row) : List Row :=
  df.map cleanRow

/- primary_validation, GEE branch: only rows with an EventType that is
   neither null nor "Mask" nor "Model" are kept. -/

def geeKeep (r : Row) : Bool :=
  !(isNA (getField r "EventType")) &&
    getField r "EventType" ≠ Cell.str "Mask" &&
    getField r "EventType" ≠ Cell.str "Model"

def geeFilter (df : List Row) : List Row :=
  df.filter geeKeep

/- check_mismatch / check_change_types.  Python membership `value in
   change_list` over a list of strings: a null cell is not a member, and the
   subsequent `if ct[0] is not None` filter drops null checked values from
   the mismatch list, so a null cell never produces a reported mismatch. -/

def cellInValues (c : Cell) (vals : List String) : Bool :=
  match c with
  | Cell.str s => vals.contains s
  | _ => false

def check_mismatch (r : Row) (validValues : List String) (colCheck colRet : String) :
    Option (Cell × Cell) :=
  if cellInValues (getField r colCheck) validValues then none
  else
    match getField r colCheck with
    | Cell.null => none
    | c => some (c, getField r colRet)

def check_change_types (validValues : List String) (df : List Row) :
    Bool × List (Cell × Cell) :=
  if df.all (fun r => isNA (getField r "ChangeType")) then (false, [])
  else
    let changeList := validValues ++ [" "]
    let mismatchCt := df.filterMap (fun r => check_mismatch r changeList "ChangeType" "PatchName")
    let mismatchAt := df.filterMap (fun r => check_mismatch r changeList "AltType" "PatchName")
    let mismatches := mismatchCt ++ mismatchAt
    (!mismatches.isEmpty, mismatches)

/- check_confidence.  `events` are rows whose EventType is neither " " nor
   null; pandas comparisons against a null Confidence evaluate to false, so
   only integer Confidence values are selected by the range filters. -/

def isEventRow (r : Row) : Bool :=
  getField r "EventType" ≠ Cell.str " " && !(isNA (getField r "EventType"))

def confOutOfRange (r : Row) : Bool :=
  match getField r "Confidence" with
  | Cell.int n => n < 1 ∨ n > 3
  | _ => false

def confBelowThree (r : Row) : Bool :=
  match getField r "Confidence" with
  | Cell.int n => n < 3
  | _ => false

def check_confidence (df : List Row) (onlyValues : Bool) : Bool × List Cell :=
  let events := df.filter isEventRow
  if events.isEmpty then (false, [])
  else
    let conCk := events.filter confOutOfRange
    let noExport := !conCk.isEmpty
    if onlyValues then (noExport, [])
    else
      let conf12 := events.filter
        (fun r => confBelowThree r && getField r "EventType" ≠ Cell.str "Mask")
      let confAltType := conf12.filter (fun r => isNA (getField r "AltType"))
      let confAltTypePatches := confAltType.map (fun r => getField r "PatchName")
      (noExport || !confAltType.isEmpty, confAltTypePatches)

/- check_duplicate_patch_names: pandas duplicated(keep=False) marks every
   row whose PatchName occurs more than once. -/

def check_duplicate_patch_names (df : List Row) : Bool × List Cell :=
  let duplicates := df.filter
    (fun r => 2 ≤ df.countP (fun r2 => getField r2 "PatchName" = getField r "PatchName"))
  let duplicatePatches := duplicates.map (fun r => getField r "PatchName")
  (!duplicatePatches.isEmpty, duplicatePatches)

/- check_fields_have_values: a field is reported when any row holds a null
   or a single-space value in it. -/

def check_fields_have_values (df : List Row) (valueFields : List String) :
    Bool × List String :=
  let missingValues := valueFields.filter
    (fun f => df.any (fun r => isNA (getField r f) || getField r f = Cell.str " "))
  (!missingValues.isEmpty, missingValues)

/- primary_validation: cleans (CSV) or filters (GEE) the extracted rows,
   then runs all three checks and only afterwards combines their verdicts
   with `or`, in the source's order (confidence, change types, duplicates).
   The validValues parameter stands for the ChangeType vocabulary read from
   the lookup.ChangeType table of the external database. -/

structure ValidationResult where
  noExport : Bool
  df : List Row
  changeTypeReport : List (Cell × Cell)
  confidenceReport : List Cell
  duplicateReport : List Cell
deriving Repr

def primary_validation (validValues : List String) (df : List Row) (csvExp : Bool) :
    ValidationResult :=
  let df := if csvExp then clean_data df else geeFilter df
  let ct := check_change_types validValues df
  let conf := check_confidence df csvExp
  let dup := check_duplicate_patch_names df
  { noExport := conf.1 || ct.1 || dup.1
    df := df
    changeTypeReport := ct.2
    confidenceReport := conf.2
    duplicateReport := dup.2 }

/- export_patches_csv: returns no_export in every case and writes the CSV
   (modelled as `some rows`) only when no_export is false. -/

def export_patches_csv (validValues : List String) (df : List Row) :
    Bool × Option (List Row) :=
  let v := primary_validation validValues df true
  (v.noExport, if v.noExport then none else some v.df)

/- export_patches_shp field lists, copied from the source. -/

def shpExpFields : List String :=
  ["AltType", "ChangeDesc", "ChangeType", "Confidence", "DistYear", "DistName",
   "EventType", "InBuffer", "InMask", "InPark", "MAJORAXIS", "MINORAXIS",
   "ORIENTATION", "Aspect", "PatchName", "Protected", "THICKNESS", "X_Coord_m",
   "Y_Coord_m", "Latitude", "Longitude", "paratio", "Park", "annualID", "area",
   "perim", "shape_1", "index", "uniqID", "yod", "durMn", "durSd", "idxMagMn",
   "idxMagSd", "tcbMagMn", "tcbMagSd", "tcbPreMn", "tcbPreSd", "tcbPst01Mn",
   "tcbPst01Sd", "tcbPst03Mn", "tcbPst03Sd", "tcbPst07Mn", "tcbPst07Sd",
   "tcbPst15Mn", "tcbPst15Sd", "tcbPstMn", "tcbPstSd", "tcgMagMn", "tcgMagSd",
   "tcgPreMn", "tcgPreSd", "tcgPst01Mn", "tcgPst01Sd", "tcgPst03Mn",
   "tcgPst03Sd", "tcgPst07Mn", "tcgPst07Sd", "tcgPst15Mn", "tcgPst15Sd",
   "tcgPstMn", "tcgPstSd", "tcwMagMn", "tcwMagSd", "tcwPreMn", "tcwPreSd",
   "tcwPst01Mn", "tcwPst01Sd", "tcwPst03Mn", "tcwPst03Sd", "tcwPst07Mn",
   "tcwPst07Sd", "tcwPst15Mn", "tcwPst15Sd", "tcwPstMn", "tcwPstSd",
   "Shape_Area", "Shape_Length"]

def shpNoCheckFields : List String :=
  ["AltType", "ChangeDesc", "DistYear", "DistName"]

def shpValueFields : List String :=
  shpExpFields.filter (fun f => f ∉ shpNoCheckFields)

/- export_patches_shp: runs primary_validation (GEE branch) plus the
   non-null-fields check; `return no_export` sits only on the success
   branch, so the Python function returns None (modelled `none`) whenever
   validation fails, and `some false` when the shapefile was written. -/

def export_patches_shp (validValues : List String) (df : List Row) :
    Option Bool × Option (List Row) :=
  let v := primary_validation validValues df false
  let fieldsCheck := check_fields_have_values v.df shpValueFields
  let noExport := v.noExport || fieldsCheck.1
  if noExport then (none, none) else (some noExport, some v.df)

/- ExportPatches.py driver: Python truthiness of the aggregated flags.
   `no_export_gee = no_export_gee or no_export_gee_fc` uses Python `or`,
   which returns its left operand when truthy and its right operand
   otherwise; the final `if no_export_csv or no_export_gee: raise` tests
   truthiness, under which None is falsy. -/

def pyTruthy : Option Bool → Bool
  | none => false
  | some b => b

def pyOr (x y : Option Bool) : Option Bool :=
  if pyTruthy x then x else y

structure DriverResult where
  noExportCsv : Bool
  noExportGee : Option Bool
  raisesError : Bool
deriving Repr

def exportDriver (validValues : List String) (exportCsv exportGee : Bool)
    (datasets : List (List Row)) : DriverResult :=
  let noExportCsv :=
    if exportCsv then
      datasets.foldl (fun acc df => acc || (export_patches_csv validValues df).1) false
    else false
  let noExportGee :=
    if exportGee then
      datasets.foldl (fun acc df => pyOr acc (export_patches_shp validValues df).1) (some false)
    else some false
  { noExportCsv := noExportCsv
    noExportGee := noExportGee
    raisesError := noExportCsv || pyTruthy noExportGee }

/- ===================================================================
   addAttrUtils.update_area_perim (C7).  The stored area/perim fields are
   compared for exact equality with the geometry-derived Shape_Area /
   Shape_Length; when they differ, the geometry value is rounded with
   Python's built-in round (round-half-to-even) and stored.  Field values
   are modelled as rationals.
   =================================================================== -/

def pyRound (q : ℚ) : ℤ :=
  let f := ⌊q⌋
  if q - f < 1 / 2 then f
  else if q - f > 1 / 2 then f + 1
  else if f % 2 = 0 then f else f + 1

def updateStored (orig new : ℚ) : ℚ :=
  if orig = new then orig else (pyRound new : ℚ)

structure ShapeRow where
  area : ℚ
  perim : ℚ
  shapeArea : ℚ
  shapeLength : ℚ
deriving DecidableEq, Repr

def update_area_perim (r : ShapeRow) : ShapeRow :=
  { r with
    area := updateStored r.area r.shapeArea
    perim := updateStored r.perim r.shapeLength }

/- ===================================================================
   addAttrFunctions.add_park_patch_name and the orchestrator's start/end
   year computation (C2).  The orchestrator reads every yod of the merged
   cumulative dataset, takes min and max once, and only then calculates
   PatchName for every record with a single field expression.
   =================================================================== -/

structure CumPatch where
  yod : Nat
  annualID : Nat
  index : String
  park : Option String := none
  patchName : Option String := none
deriving DecidableEq, Repr

/- The CalculateField expression
   `"{park}_{mmu}_" + !index! + "_{start_yr}_{end_yr}_" + str(!yod!) + "_" + str(!annualID!)`
   with the f-string literals expanded. -/
def patchNameExpr (park : String) (mmu : Nat) (index : String)
    (startYr endYr yod annualID : Nat) : String :=
  (park ++ "_" ++ toString mmu ++ "_") ++ index ++
    ("_" ++ toString startYr ++ "_" ++ toString endYr ++ "_") ++
    toString yod ++ "_" ++ toString annualID

def add_park_patch_name (changeDB : List CumPatch) (park : String) (mmu : Nat)
    (startYr endYr : Nat) : List CumPatch :=
  changeDB.map (fun p =>
    { p with
      park := some park
      patchName := some (patchNameExpr park mmu p.index startYr endYr p.yod p.annualID) })

/- Python min/max over a list (error on empty; the orchestrator only reaches
   this point with a non-empty cumulative dataset). -/
def listMin : List Nat → Nat
  | [] => 0
  | x :: xs => xs.foldl min x

def listMax : List Nat → Nat
  | [] => 0
  | x :: xs => xs.foldl max x

/- AddAttributesToPatches.py lines 225-231: start_yr/end_yr from the whole
   cumulative dataset, then add_park_patch_name. -/
def finalizeChangeDB (changeDB : List CumPatch) (park : String) (mmu : Nat) :
    List CumPatch :=
  let yrs := changeDB.map (fun p => p.yod)
  let startYr := listMin yrs
  let endYr := listMax yrs
  add_park_patch_name changeDB park mmu startYr endYr

/- The claim's reading of the PatchName format: a flat left-associated
   concatenation park_mmu_withinYearIndex_startYear_endYear_yod_annualID. -/
def patchNameSpec (park : String) (mmu : Nat) (index : String)
    (startYr endYr yod annualID : Nat) : String :=
  park ++ "_" ++ toString mmu ++ "_" ++ index ++ "_" ++ toString startYr ++ "_" ++
    toString endYr ++ "_" ++ toString yod ++ "_" ++ toString annualID

/- ===================================================================
   OverlapPrv (C3): AddAttributesToPatches.py lines 198-212 and
   addAttrFunctions.add_overlap_prev.  The field is added with AddField
   (NULLABLE, no default), so every row starts with a null OverlapPrv;
   add_overlap_prev then sets 1 on the current-year patches selected as
   truly overlapping the filtered previous-year set, and nothing ever
   writes 0.  The negative-buffer intersection test is abstracted as a
   relation on annualIDs supplied as a parameter.
   =================================================================== -/

structure OPatch where
  annualID : Nat
  eventType : Option String := none
  inMask : Option Int := none
  overlapPrv : Option Int := none
deriving DecidableEq, Repr

/- MakeFeatureLayer where clauses in add_overlap_prev: EventType IS NULL
   when events/mask labeling ran, InMask = 0 for unmasked parks, no filter
   for LEWI (which has no InMask field). -/
def overlapLayerFilter (eventsMask : Bool) (park : String) (p : OPatch) : Bool :=
  if eventsMask then p.eventType = none
  else if park ≠ "LEWI" then p.inMask = some 0
  else true

def add_overlap_prev (overlaps : Nat → Nat → Bool) (baseFc prevFc : List OPatch)
    (park : String) (eventsMask : Bool) : List OPatch :=
  let prevLyr := prevFc.filter (overlapLayerFilter eventsMask park)
  baseFc.map (fun p =>
    if overlapLayerFilter eventsMask park p &&
        prevLyr.any (fun q => overlaps p.annualID q.annualID) then
      { p with overlapPrv := some 1 }
    else p)

/- AddField OverlapPrv (SHORT, NULLABLE): every existing row gets a null
   value for the new field. -/
def addFieldOverlapPrv (fc : List OPatch) : List OPatch :=
  fc.map (fun p => { p with overlapPrv := none })

/- One iteration of the orchestrator's overlap block: add the field, then
   compare against the previous year only when one exists. -/
def processYearOverlap (overlaps : Nat → Nat → Bool) (park : String)
    (eventsMask : Bool) (prevFc : Option (List OPatch)) (baseFc : List OPatch) :
    List OPatch :=
  let baseFc := addFieldOverlapPrv baseFc
  match prevFc with
  | none => baseFc
  | some prev => add_overlap_prev overlaps baseFc prev park eventsMask

/- ===================================================================
   Event Labeler (C4): eventsFunctions.add_event_fields, label_elev_mask,
   label_water_mask, add_annual_var, sequenced as in
   AddAttributesToPatches.py lines 183-192.  The completely-within test
   against the water mask is abstracted as a per-patch Boolean input.
   =================================================================== -/

structure EPatch where
  annualID : Nat
  inMask : Option Int := none
  withinWater : Bool := false
  eventType : Option String := none
  changeType : Option String := none
  confidence : Option Int := none
  altType : Option String := none
  changeDesc : Option String := none
  eventDate : Option String := none
  labeledBy : Option String := none
  priorRun : Option Int := none
  postDist : Option Int := none
  distName : Option String := none
  distYear : Option Int := none
  split : Option Int := none
  mapPatch : Option String := none
deriving DecidableEq, Repr

/- add_event_fields: AddField for the 13 event fields (NULLABLE, hence
   null) and CalculateField Split = 0. -/
def add_event_fields (fc : List EPatch) : List EPatch :=
  fc.map (fun p =>
    { p with
      eventType := none, changeType := none, confidence := none,
      altType := none, changeDesc := none, eventDate := none,
      labeledBy := none, priorRun := none, postDist := none,
      distName := none, distYear := none, mapPatch := none,
      split := some 0 })

/- add_annual_var over a selected layer.  Every value is pushed through a
   quoted CalculateField expression; arcpy coerces "2"/"0" back to the
   SHORT fields Confidence/PriorRun/PostDist. -/
def add_annual_var (today : String) (sel : EPatch → Bool) (fc : List EPatch) :
    List EPatch :=
  fc.map (fun p =>
    if sel p then
      { p with
        eventType := some "Mask"
        changeType := some "Annual Variability"
        confidence := some 2
        eventDate := some today
        labeledBy := some "Geoprocessing"
        priorRun := some 0
        postDist := some 0 }
    else p)

def label_elev_mask (today : String) (fc : List EPatch) : List EPatch :=
  add_annual_var today (fun p => p.inMask = some 1) fc

def label_water_mask (today : String) (fc : List EPatch) : List EPatch :=
  add_annual_var today (fun p => p.withinWater) fc

/- AddAttributesToPatches.py events branch: add the fields, label the
   elevation mask except for LEWI, then label the water mask. -/
def eventLabeler (park : String) (today : String) (fc : List EPatch) : List EPatch :=
  let fc := add_event_fields fc
  let fc := if park ≠ "LEWI" then label_elev_mask today fc else fc
  label_water_mask today fc

/- ===================================================================
   Schema uniformity (C6): the Protected/EastWest branch of
   addAttrFunctions.add_attrs_points, the InMask branch of
   addAttr.add_attr_patches, and addAttrFunctions.add_veg_type.  A field
   value is `none` when the field was never added to the schema,
   `some none` when it was added and left null, and `some (some v)`
   otherwise.  Spatial tests are abstracted as per-patch inputs.
   =================================================================== -/

structure ParkConfig where
  hasProtected : Bool
  hasEastWest : Bool
  hasMask : Bool
  hasVegTbl : Bool
deriving DecidableEq, Repr

/- addAttr.add_attr_patches sets all four reference layers for every park
   except LEWI, and none of them for LEWI. -/
def parkConfigOf (park : String) : ParkConfig :=
  if park ≠ "LEWI" then ⟨true, true, true, true⟩ else ⟨false, false, false, false⟩

structure SPatchIn where
  protectedHit : Bool
  eastWestHit : Option String
  maskHit : Bool
  vegValue : Int
deriving DecidableEq, Repr

structure SPatchOut where
  protectedFld : Option (Option Int)
  eastWest : Option (Option String)
  inMask : Option (Option Int)
  vegCode : Option (Option String)
deriving DecidableEq, Repr

/- add_veg_type's LEWI code_block: zero-pad the raster value behind an L. -/
def create_code (id : Int) : String :=
  if id < 10 then "L0" ++ toString id else "L" ++ toString id

def add_attr_patches_schema (cfg : ParkConfig) (vegLookup : Int → Option String)
    (p : SPatchIn) : SPatchOut :=
  let prot : Option (Option Int) :=
    if !cfg.hasProtected || !cfg.hasEastWest then some none
    else some (some (if p.protectedHit then 1 else 0))
  let ew : Option (Option String) :=
    if !cfg.hasProtected || !cfg.hasEastWest then some none
    else some p.eastWestHit
  let im : Option (Option Int) :=
    if cfg.hasMask then some (some (if p.maskHit then 1 else 0)) else none
  let vc : Option (Option String) :=
    if cfg.hasVegTbl then some (vegLookup p.vegValue)
    else some (some (create_code p.vegValue))
  ⟨prot, ew, im, vc⟩

/- ===================================================================
   Curated-label join (C8): JoinLabelsToPatches.py joins the seven event
   fields from the label table by PatchName (first match; unmatched rows
   get nulls), then eventsFunctions.update_event_fields copies the joined
   _1 fields into the original fields using the source's two parallel
   lists, which name ChangeType twice and never name ChangeDesc.
   =================================================================== -/

structure JPatch where
  patchName : String
  eventType : Option String := none
  changeType : Option String := none
  confidence : Option Int := none
  altType : Option String := none
  changeDesc : Option String := none
  distYear : Option Int := none
  distName : Option String := none
deriving DecidableEq, Repr

structure LabelRow where
  patchName : String
  eventType : Option String := none
  changeType : Option String := none
  confidence : Option Int := none
  altType : Option String := none
  changeDesc : Option String := none
  distYear : Option Int := none
  distName : Option String := none
deriving DecidableEq, Repr

structure JoinedPatch extends JPatch where
  eventType1 : Option String := none
  changeType1 : Option String := none
  confidence1 : Option Int := none
  altType1 : Option String := none
  changeDesc1 : Option String := none
  distYear1 : Option Int := none
  distName1 : Option String := none
deriving DecidableEq, Repr

def joinEventFields (eventsTbl : List LabelRow) (p : JPatch) : JoinedPatch :=
  match eventsTbl.find? (fun t => t.patchName = p.patchName) with
  | some t =>
      { p with
        eventType1 := t.eventType, changeType1 := t.changeType,
        confidence1 := t.confidence, altType1 := t.altType,
        changeDesc1 := t.changeDesc, distYear1 := t.distYear,
        distName1 := t.distName }
  | none => { p with }

/- update_event_fields: CalculateField over patches_fields[i] :=
   value_fields[i] with the lists as written in the source -
   ["EventType","ChangeType","Confidence","AltType","ChangeType",
    "DistYear","DistName"] from ["EventType_1","ChangeType_1",
    "Confidence_1","AltType_1","ChangeType_1","DistYear_1","DistName_1"] -
   so ChangeType is assigned twice and ChangeDesc is never assigned. -/
def update_event_fields (p : JoinedPatch) : JPatch :=
  { patchName := p.patchName
    eventType := p.eventType1
    changeType := p.changeType1
    confidence := p.confidence1
    altType := p.altType1
    changeDesc := p.changeDesc
    distYear := p.distYear1
    distName := p.distName1 }

/- JoinLabelsToPatches.py, event_fields_exist branch: join, then update. -/
def joinLabelsToPatches (eventsTbl : List LabelRow) (patches : List JPatch) :
    List JPatch :=
  patches.map (fun p => update_event_fields (joinEventFields eventsTbl p))

/- ===================================================================
   Geometry & Coordinate Deriver (C5): addAttrFunctions.add_albers and
   add_coords.  A patch records its annualID, whether the central-point
   ("INSIDE") computation fails on its geometry, which method last wrote
   its Albers coordinates (none while the X_Coord_m field is still unset),
   and the CoordType text field.  CalculateGeometryAttributes over a
   selection is modelled as processing the selected rows in feature order
   and erroring at the first failing geometry, leaving that row and all
   later rows untouched; SearchCursor reads see the current field values.
   Recursion depth is bounded by the row count (each recursive call moves
   to a strictly larger failing annualID), supplied as fuel; annualIDs are
   assumed positive because Python tests `if a_id:` by truthiness.
   =================================================================== -/

inductive CoordMethod where
  | central : CoordMethod
  | centroid : CoordMethod
deriving DecidableEq, Repr

structure APatch where
  annualID : Nat
  bad : Bool
  coord : Option CoordMethod := none
  coordType : Option String := none
deriving DecidableEq, Repr

def calcInside (sel : Nat → Bool) : List APatch → List APatch × Bool
  | [] => ([], true)
  | p :: rest =>
    if sel p.annualID then
      if p.bad then (p :: rest, false)
      else
        let r := calcInside sel rest
        ({ p with coord := some CoordMethod.central } :: r.1, r.2)
    else
      let r := calcInside sel rest
      (p :: r.1, r.2)

/- The SearchCursor scan for the first row whose X_Coord_m is null. -/
def firstNullId (fc : List APatch) : Option Nat :=
  (fc.find? (fun p => p.coord = none)).map (fun p => p.annualID)

/- SelectLayerByAttribute annualID = b followed by the CENTROID calc. -/
def calcCentroid (b : Nat) (fc : List APatch) : List APatch :=
  fc.map (fun p =>
    if p.annualID = b then { p with coord := some CoordMethod.centroid } else p)

/- The recursive branch of add_albers (a_id passed in): append a_id to the
   annualID list, warn and stop when a_id is the maximum annualID,
   otherwise retry the central point on annualID > a_id and recurse on the
   first failing patch.  The third component is the emitted warning. -/
def addAlbersRec (maxAid : Nat) : Nat → List APatch → Nat → List Nat →
    List APatch × List Nat × Option (List Nat)
  | fuel, fc, aId, annualIds =>
    let annualIds := annualIds ++ [aId]
    if aId = maxAid then (fc, annualIds, some annualIds)
    else
      match fuel with
      | 0 => (fc, annualIds, none)
      | fuel + 1 =>
        let r := calcInside (fun i => aId < i) fc
        if r.2 then (r.1, annualIds, none)
        else
          match firstNullId r.1 with
          | none => (r.1, annualIds, none)
          | some b => addAlbersRec maxAid fuel (calcCentroid b r.1) b annualIds

structure AlbersResult where
  fc : List APatch
  annualIds : Option (List Nat)
  warning : Option (List Nat)
deriving DecidableEq, Repr

/- Top-level add_albers (a_id = None): try the central point on the whole
   feature class; on failure fall back on the first failing patch and hand
   off to the recursive branch. -/
def add_albers (fc : List APatch) : AlbersResult :=
  let maxAid := listMax (fc.map (fun p => p.annualID))
  let r := calcInside (fun _ => true) fc
  if r.2 then ⟨r.1, none, none⟩
  else
    match firstNullId r.1 with
    | none => ⟨r.1, none, none⟩
    | some b =>
      let res := addAlbersRec maxAid fc.length (calcCentroid b r.1) b []
      ⟨res.1, some res.2.1, res.2.2⟩

/- add_coords: CoordType defaults to "Central point" for every patch, and
   the annualIDs returned by add_albers are re-selected and flipped to
   "Centroid" when the returned list is not None. -/
def add_coords (fc : List APatch) : AlbersResult :=
  let fc := fc.map (fun p => { p with coordType := some "Central point" })
  let r := add_albers fc
  match r.annualIds with
  | some ids =>
      ⟨r.fc.map (fun p =>
          if ids.contains p.annualID then { p with coordType := some "Centroid" } else p),
        some ids, r.warning⟩
  | none => r

/- Specification-side helpers for the coordinate deriver theorems. -/

def expectedCoord (p : APatch) : Option CoordMethod :=
  some (if p.bad then CoordMethod.centroid else CoordMethod.central)

def setExpected (p : APatch) : APatch :=
  { p with coord := expectedCoord p }

def badIds (fc : List APatch) : List Nat :=
  (fc.filter (fun p => p.bad)).map (fun p => p.annualID)

def badIdsLe (fc : List APatch) (a : Nat) : List Nat :=
  (fc.filter (fun p => p.bad && p.annualID ≤ a)).map (fun p => p.annualID)

def idsSorted (fc : List APatch) : Prop :=
  fc.Pairwise (fun p q => p.annualID < q.annualID)

/- The per-row effect of a successful central-point calculation over a
   selection. -/
def setCentralIf (sel : Nat → Bool) (p : APatch) : APatch :=
  if sel p.annualID then { p with coord := some CoordMethod.central } else p

/- A row transformation that only rewrites the coordinate provenance. -/
def CoordOnly (g : APatch → APatch) : Prop :=
  ∀ p, g p = { p with coord := (g p).coord }

/- ===================================================================
   Concrete datasets used by the scenario conjuncts and witnesses.
   =================================================================== -/

/- C1: one row with a ChangeType outside the vocabulary, plus two rows
   sharing a PatchName. -/
def c1Row1 : Row :=
  [("PatchName", Cell.str "PARK_5_1_1990_2020_2001_1"),
   ("EventType", Cell.str "Dist"), ("ChangeType", Cell.str "BadType"),
   ("AltType", Cell.str "Fire"), ("Confidence", Cell.int 2),
   ("DistYear", Cell.int 2001), ("DistName", Cell.str "Storm")]

def c1Row2 : Row :=
  [("PatchName", Cell.str "PARK_5_2_1990_2020_2002_2"),
   ("EventType", Cell.str "Dist"), ("ChangeType", Cell.str "Fire"),
   ("AltType", Cell.str "Fire"), ("Confidence", Cell.int 3),
   ("DistYear", Cell.int 2002), ("DistName", Cell.str "Storm")]

def c1Row3 : Row :=
  [("PatchName", Cell.str "PARK_5_2_1990_2020_2002_2"),
   ("EventType", Cell.str "Dist"), ("ChangeType", Cell.str "Fire"),
   ("AltType", Cell.str "Fire"), ("Confidence", Cell.int 3),
   ("DistYear", Cell.int 2003), ("DistName", Cell.str "Storm")]

def c1df : List Row := [c1Row1, c1Row2, c1Row3]

def c1ValidValues : List String := ["Fire", "Harvest"]

/- C9 / C10: a single record with EventType "Dist", Confidence 1 and a
   null AltType, as in the spec scenario. -/
def c9Row : Row :=
  [("PatchName", Cell.str "PARK_5_7_1990_2020_2001_42"),
   ("EventType", Cell.str "Dist"), ("ChangeType", Cell.str "Fire"),
   ("AltType", Cell.null), ("Confidence", Cell.int 1)]

def c9df : List Row := [c9Row]

/- ===================================================================
   Theorems.
   =================================================================== -/

theorem updateStored_idem (a b : ℚ) :
    updateStored (updateStored a b) b = updateStored a b := by
  unfold updateStored
  by_cases h : a = b <;> simp [h]

/-- C7: synchronizing the area and perim fields with Shape_Area/Shape_Length
leaves a stored value that already equals the geometry value unchanged and
otherwise overwrites it with the geometry value rounded to the nearest
integer, and running the synchronization a second time immediately afterwards
changes nothing. -/
theorem c7_update_area_perim_idempotent (r : ShapeRow) :
    update_area_perim (update_area_perim r) = update_area_perim r ∧
    (update_area_perim r).area =
      (if r.area = r.shapeArea then r.area else (pyRound r.shapeArea : ℚ)) ∧
    (update_area_perim r).perim =
      (if r.perim = r.shapeLength then r.perim else (pyRound r.shapeLength : ℚ)) := by
  refine ⟨?_, rfl, rfl⟩
  simp [update_area_perim, updateStored_idem]

theorem patchNameExpr_eq_spec (park : String) (mmu : Nat) (index : String)
    (startYr endYr yod annualID : Nat) :
    patchNameExpr park mmu index startYr endYr yod annualID =
      patchNameSpec park mmu index startYr endYr yod annualID := by
  unfold patchNameExpr patchNameSpec
  simp [String.append_assoc]

/-- C2: every patch of the finalized cumulative dataset receives PatchName
park_mmu_withinYearIndex_startYear_endYear_yod_annualID, where startYear and
endYear are the minimum and maximum year-of-disturbance over the entire
cumulative dataset, computed once after all years are merged. -/
theorem c2_patch_name_formula (changeDB : List CumPatch) (park : String) (mmu : Nat)
    (p : CumPatch) (hp : p ∈ finalizeChangeDB changeDB park mmu) :
    p.patchName = some (patchNameSpec park mmu p.index
      (listMin (changeDB.map (fun q => q.yod))) (listMax (changeDB.map (fun q => q.yod)))
      p.yod p.annualID) := by
  unfold finalizeChangeDB add_park_patch_name at hp
  obtain ⟨q, hq, rfl⟩ := List.mem_map.mp hp
  simp [patchNameExpr_eq_spec]

/-- Witness for C2: in a dataset whose years span 1990-2020, the patch with
annualID 42, yod 2001 and within-year index "7" for park "PARK" with mmu 5 is
named PARK_5_7_1990_2020_2001_42. -/
theorem c2_patch_name_formula_witness :
    some (patchNameSpec "PARK" 5 "7" (listMin [1990, 2020, 2001])
        (listMax [1990, 2020, 2001]) 2001 42) =
      some "PARK_5_7_1990_2020_2001_42" ∧
    ({ yod := 2001, annualID := 42, index := "7", park := some "PARK",
        patchName := some "PARK_5_7_1990_2020_2001_42" } : CumPatch).patchName =
      some (patchNameSpec "PARK" 5 "7" (listMin [1990, 2020, 2001])
        (listMax [1990, 2020, 2001]) 2001 42) :=
  ⟨by decide, c2_patch_name_formula
    [{ yod := 1990, annualID := 1, index := "1" }, { yod := 2020, annualID := 3, index := "2" },
      { yod := 2001, annualID := 42, index := "7" }] "PARK" 5 _ (by decide)⟩

/-- C3: contrary to the claim (and to add_overlap_prev's own docstring), the
OverlapPrv field is only added as a nullable field and is never calculated to
0: in the first processed year every patch ends with a null OverlapPrv, and in
later years the patches not selected as overlapping also keep null rather
than 0; only selected patches receive 1. -/
theorem c3_overlapPrv_left_null :
    (processYearOverlap (fun _ _ => false) "MORA" true none
        [{ annualID := 1, inMask := some 0 }]).map (fun p => p.overlapPrv) = [none] ∧
    (processYearOverlap (fun a b => a = 1 && b = 7) "MORA" false
        (some [{ annualID := 7, inMask := some 0 }])
        [{ annualID := 1, inMask := some 0 }, { annualID := 2, inMask := some 0 }]).map
      (fun p => p.overlapPrv) = [some 1, none] := by
  exact ⟨rfl, rfl⟩

/-- C4: after the Event Labeler runs, every patch completely within the
elevation mask (InMask = 1; the InMask field only exists for parks other than
LEWI) or completely within the water mask carries EventType "Mask", ChangeType
"Annual Variability", Confidence 2, EventDate = processing date, LabeledBy
"Geoprocessing", PriorRun 0 and PostDist 0. -/
theorem c4_mask_annual_variability (park today : String) (fc : List EPatch) (p : EPatch)
    (hp : p ∈ eventLabeler park today fc)
    (hLewi : park = "LEWI" → p.inMask = none)
    (hmask : p.inMask = some 1 ∨ p.withinWater = true) :
    p.eventType = some "Mask" ∧ p.changeType = some "Annual Variability" ∧
    p.confidence = some 2 ∧ p.eventDate = some today ∧
    p.labeledBy = some "Geoprocessing" ∧ p.priorRun = some 0 ∧ p.postDist = some 0 := by
  unfold eventLabeler label_water_mask add_annual_var at hp
  obtain ⟨q, hq, hpq⟩ := List.mem_map.mp hp
  by_cases hw : q.withinWater = true
  · rw [if_pos hw] at hpq
    subst hpq
    exact ⟨rfl, rfl, rfl, rfl, rfl, rfl, rfl⟩
  · rw [if_neg hw] at hpq
    subst hpq
    have hm : q.inMask = some 1 := by
      rcases hmask with h | h
      · exact h
      · exact absurd h hw
    by_cases hpark : park = "LEWI"
    · rw [hLewi hpark] at hm
      exact absurd hm (by simp)
    · rw [if_pos hpark] at hq
      unfold label_elev_mask add_annual_var at hq
      obtain ⟨q0, hq0, hqq⟩ := List.mem_map.mp hq
      by_cases hm0 : q0.inMask = some 1
      · rw [if_pos (by simpa using hm0)] at hqq
        rw [← hqq]
        exact ⟨rfl, rfl, rfl, rfl, rfl, rfl, rfl⟩
      · rw [if_neg (by simpa using hm0)] at hqq
        rw [← hqq] at hm
        exact absurd hm hm0

/-- Witness for C4: a MORA patch with InMask = 1 is labeled Mask / Annual
Variability / Confidence 2 by the Event Labeler. -/
theorem c4_mask_annual_variability_witness :
    ({ annualID := 1, inMask := some 1, withinWater := false, eventType := some "Mask",
        changeType := some "Annual Variability", confidence := some 2,
        eventDate := some "2026-02-03", labeledBy := some "Geoprocessing",
        priorRun := some 0, postDist := some 0, split := some 0 } : EPatch).eventType =
        some "Mask" ∧
    ({ annualID := 1, inMask := some 1, withinWater := false, eventType := some "Mask",
        changeType := some "Annual Variability", confidence := some 2,
        eventDate := some "2026-02-03", labeledBy := some "Geoprocessing",
        priorRun := some 0, postDist := some 0, split := some 0 } : EPatch).confidence =
        some 2 :=
  ⟨(c4_mask_annual_variability "MORA" "2026-02-03" [{ annualID := 1, inMask := some 1 }] _
      (by decide) (fun h => absurd h (by decide)) (Or.inl rfl)).1,
    (c4_mask_annual_variability "MORA" "2026-02-03" [{ annualID := 1, inMask := some 1 }] _
      (by decide) (fun h => absurd h (by decide)) (Or.inl rfl)).2.2.1⟩

/-- Counterexample to C6: for the LEWI configuration (no elevation mask, no
vegetation lookup table), the InMask field is never added to the schema and
VegCode is populated with a synthesized code rather than null, contradicting
the claim that every omitted-layer field is added and null-populated. -/
theorem c6_counterexample :
    ¬ ((add_attr_patches_schema (parkConfigOf "LEWI") (fun _ => none)
          ⟨false, none, false, 7⟩).inMask = some none ∧
        (add_attr_patches_schema (parkConfigOf "LEWI") (fun _ => none)
          ⟨false, none, false, 7⟩).vegCode = some none) := by
  intro h
  exact absurd h.1 (by decide)

/-- C6 amended: when protected areas or the east-west split are omitted, the
Protected and EastWest fields are still added and populated with nulls; when
the elevation mask is omitted, the InMask field is not added at all; when the
vegetation lookup table is omitted, VegCode is added but populated with the
synthesized zero-padded code, not null. -/
theorem c6_amended_schema (cfg : ParkConfig) (vegLookup : Int → Option String)
    (p : SPatchIn) :
    ((!cfg.hasProtected || !cfg.hasEastWest) = true →
      (add_attr_patches_schema cfg vegLookup p).protectedFld = some none ∧
      (add_attr_patches_schema cfg vegLookup p).eastWest = some none) ∧
    (cfg.hasMask = false →
      (add_attr_patches_schema cfg vegLookup p).inMask = none) ∧
    (cfg.hasVegTbl = false →
      (add_attr_patches_schema cfg vegLookup p).vegCode =
        some (some (create_code p.vegValue))) := by
  unfold add_attr_patches_schema
  refine ⟨fun h => ⟨?_, ?_⟩, fun h => ?_, fun h => ?_⟩ <;> simp [h]

/-- Witness for C6 amended: evaluated at the LEWI configuration. -/
theorem c6_amended_schema_witness :
    (add_attr_patches_schema (parkConfigOf "LEWI") (fun _ => none)
        ⟨false, none, false, 7⟩).protectedFld = some none ∧
    (add_attr_patches_schema (parkConfigOf "LEWI") (fun _ => none)
        ⟨false, none, false, 7⟩).eastWest = some none ∧
    (add_attr_patches_schema (parkConfigOf "LEWI") (fun _ => none)
        ⟨false, none, false, 7⟩).inMask = none ∧
    (add_attr_patches_schema (parkConfigOf "LEWI") (fun _ => none)
        ⟨false, none, false, 7⟩).vegCode = some (some (create_code 7)) := by
  have h := c6_amended_schema (parkConfigOf "LEWI") (fun _ => none) ⟨false, none, false, 7⟩
  exact ⟨(h.1 (by decide)).1, (h.1 (by decide)).2, h.2.1 (by decide), h.2.2 (by decide)⟩

/-- C8: the curated-label join does overwrite EventType, ChangeType,
Confidence, AltType, DistYear and DistName with the joined table's values,
but update_event_fields never assigns ChangeDesc (its field list names
ChangeType twice instead), so an existing ChangeDesc survives the join,
contradicting the claim that every listed event field is replaced. -/
theorem c8_changedesc_not_overwritten :
    joinLabelsToPatches
      [{ patchName := "P1", eventType := some "Dist", changeType := some "Fire",
          confidence := some 3, altType := some "Harvest", changeDesc := some "new",
          distYear := some 2001, distName := some "Storm" }]
      [{ patchName := "P1", eventType := some "Old", changeType := some "OldCT",
          confidence := some 1, altType := some "OldAT", changeDesc := some "old",
          distYear := some 1999, distName := some "OldName" }] =
      [{ patchName := "P1", eventType := some "Dist", changeType := some "Fire",
          confidence := some 3, altType := some "Harvest", changeDesc := some "old",
          distYear := some 2001, distName := some "Storm" }] := by
  rfl

/-- C1: export validation is exhaustive rather than fail-fast: whenever any
of the independent checks fails, no output is written (both CSV and
shapefile paths), and on the concrete dataset holding both an invalid
ChangeType and a duplicated PatchName, the change-type report and the
duplicate report each list their violation while the CSV export writes
nothing. -/
theorem c1_exhaustive_validation :
    (∀ (vv : List String) (df : List Row),
        ((check_change_types vv (clean_data df)).1 = true ∨
          (check_confidence (clean_data df) true).1 = true ∨
          (check_duplicate_patch_names (clean_data df)).1 = true) →
        (export_patches_csv vv df).2 = none) ∧
    (∀ (vv : List String) (df : List Row),
        ((check_change_types vv (geeFilter df)).1 = true ∨
          (check_confidence (geeFilter df) false).1 = true ∨
          (check_duplicate_patch_names (geeFilter df)).1 = true ∨
          (check_fields_have_values (geeFilter df) shpValueFields).1 = true) →
        (export_patches_shp vv df).2 = none) ∧
    ((check_change_types c1ValidValues (clean_data c1df)).2 =
        [(Cell.str "BadType", Cell.str "PARK_5_1_1990_2020_2001_1")] ∧
      (check_duplicate_patch_names (clean_data c1df)).2 =
        [Cell.str "PARK_5_2_1990_2020_2002_2", Cell.str "PARK_5_2_1990_2020_2002_2"] ∧
      (export_patches_csv c1ValidValues c1df).2 = none) := by
  refine ⟨fun vv df h => ?_, fun vv df h => ?_, by decide, by decide, by decide⟩
  · rcases h with h | h | h <;> simp [export_patches_csv, primary_validation, h]
  · rcases h with h | h | h | h <;> simp [export_patches_shp, primary_validation, h]

/-- Witness for C1: the first conjunct applied to the concrete dataset with
a ChangeType violation. -/
theorem c1_exhaustive_validation_witness :
    (export_patches_csv c1ValidValues c1df).2 = none :=
  c1_exhaustive_validation.1 c1ValidValues c1df (Or.inl (by decide))

theorem check_confidence_alttype_flag (df : List Row) (r : Row)
    (hr : r ∈ df) (hev : isEventRow r = true) (h12 : confBelowThree r = true)
    (hmask : getField r "EventType" ≠ Cell.str "Mask")
    (halt : isNA (getField r "AltType") = true) :
    (check_confidence df false).1 = true ∧
      getField r "PatchName" ∈ (check_confidence df false).2 := by
  have hre : r ∈ df.filter isEventRow := List.mem_filter.mpr ⟨hr, hev⟩
  have hne : (df.filter isEventRow).isEmpty = false := by
    cases h : (df.filter isEventRow).isEmpty
    · rfl
    · rw [List.isEmpty_iff] at h
      rw [h] at hre
      exact absurd hre (List.not_mem_nil r)
  have h2 : r ∈ (df.filter isEventRow).filter
      (fun r => confBelowThree r && getField r "EventType" ≠ Cell.str "Mask") :=
    List.mem_filter.mpr ⟨hre, by simp [h12, hmask]⟩
  have h3 : r ∈ ((df.filter isEventRow).filter
      (fun r => confBelowThree r && getField r "EventType" ≠ Cell.str "Mask")).filter
      (fun r => isNA (getField r "AltType")) :=
    List.mem_filter.mpr ⟨h2, halt⟩
  have hne3 : (((df.filter isEventRow).filter
      (fun r => confBelowThree r && getField r "EventType" ≠ Cell.str "Mask")).filter
      (fun r => isNA (getField r "AltType"))).isEmpty = false := by
    cases h : (((df.filter isEventRow).filter _).filter _).isEmpty
    · rfl
    · rw [List.isEmpty_iff] at h
      rw [h] at h3
      exact absurd h3 (List.not_mem_nil r)
  constructor
  · simp [check_confidence, hne]
    exact Or.inr ⟨r, hr, halt, h12, hmask, hev⟩
  · simp only [check_confidence, hne, Bool.false_eq_true, if_false]
    exact List.mem_map_of_mem (fun r => getField r "PatchName") h3

theorem check_confidence_range_flag (df : List Row) (r : Row) (onlyValues : Bool)
    (hr : r ∈ df) (hev : isEventRow r = true) (hout : confOutOfRange r = true) :
    (check_confidence df onlyValues).1 = true := by
  have hre : r ∈ df.filter isEventRow := List.mem_filter.mpr ⟨hr, hev⟩
  have hne : (df.filter isEventRow).isEmpty = false := by
    cases h : (df.filter isEventRow).isEmpty
    · rfl
    · rw [List.isEmpty_iff] at h
      rw [h] at hre
      exact absurd hre (List.not_mem_nil r)
  have h2 : r ∈ (df.filter isEventRow).filter confOutOfRange :=
    List.mem_filter.mpr ⟨hre, hout⟩
  have hne2 : ((df.filter isEventRow).filter confOutOfRange).isEmpty = false := by
    cases h : ((df.filter isEventRow).filter confOutOfRange).isEmpty
    · rfl
    · rw [List.isEmpty_iff] at h
      rw [h] at h2
      exact absurd h2 (List.not_mem_nil r)
  cases onlyValues
  · simp [check_confidence, hne]
    exact Or.inl ⟨r, hr, hout, hev⟩
  · simp [check_confidence, hne]
    exact ⟨r, hr, hout, hev⟩

/-- C9: in the shapefile path every exported row with an event, Confidence 1
or 2 and a null AltType is listed in the confidence report and blocks the
export; and in both export paths any row with an event and an integer
Confidence outside [1,3] blocks the export. -/
theorem c9_confidence_validation :
    (∀ (vv : List String) (df : List Row) (r : Row) (c : Int),
        r ∈ geeFilter df → isEventRow r = true →
        getField r "Confidence" = Cell.int c → (c = 1 ∨ c = 2) →
        isNA (getField r "AltType") = true →
        (export_patches_shp vv df).2 = none ∧
          getField r "PatchName" ∈ (primary_validation vv df false).confidenceReport) ∧
    (∀ (vv : List String) (df : List Row) (r : Row) (c : Int),
        r ∈ clean_data df → isEventRow r = true →
        getField r "Confidence" = Cell.int c → (c < 1 ∨ 3 < c) →
        (export_patches_csv vv df).2 = none) ∧
    (∀ (vv : List String) (df : List Row) (r : Row) (c : Int),
        r ∈ geeFilter df → isEventRow r = true →
        getField r "Confidence" = Cell.int c → (c < 1 ∨ 3 < c) →
        (export_patches_shp vv df).2 = none) := by
  refine ⟨fun vv df r c hg hev hc h12 halt => ?_, fun vv df r c hcl hev hc hout => ?_,
    fun vv df r c hg hev hc hout => ?_⟩
  · have hmask : getField r "EventType" ≠ Cell.str "Mask" := by
      have := (List.mem_filter.mp hg).2
      simp only [geeKeep, Bool.and_eq_true] at this
      simpa using this.1.2
    have h3 : confBelowThree r = true := by
      simp only [confBelowThree, hc]
      rcases h12 with h | h <;> simp [h]
    have hflag := check_confidence_alttype_flag (geeFilter df) r hg hev h3 hmask halt
    refine ⟨?_, ?_⟩
    · simp [export_patches_shp, primary_validation, hflag.1]
    · simpa [primary_validation] using hflag.2
  · have hout2 : confOutOfRange r = true := by
      simp only [confOutOfRange, hc]
      rcases hout with h | h <;> simp [h]
    have hflag := check_confidence_range_flag (clean_data df) r true hcl hev hout2
    simp [export_patches_csv, primary_validation, hflag]
  · have hout2 : confOutOfRange r = true := by
      simp only [confOutOfRange, hc]
      rcases hout with h | h <;> simp [h]
    have hflag := check_confidence_range_flag (geeFilter df) r false hg hev hout2
    simp [export_patches_shp, primary_validation, hflag]

/-- Witness for C9: the spec scenario, a record with Confidence 1, EventType
"Dist" and a null AltType refuses the shapefile export and is reported. -/
theorem c9_confidence_validation_witness :
    (export_patches_shp c1ValidValues c9df).2 = none ∧
      getField c9Row "PatchName" ∈
        (primary_validation c1ValidValues c9df false).confidenceReport :=
  c9_confidence_validation.1 c1ValidValues c9df c9Row 1 (by decide) (by decide) (by decide)
    (Or.inl rfl) (by decide)

theorem export_patches_shp_ret (vv : List String) (df : List Row) :
    (export_patches_shp vv df).1 = none ∨ (export_patches_shp vv df).1 = some false := by
  unfold export_patches_shp
  by_cases h : ((primary_validation vv df false).noExport ||
      (check_fields_have_values (primary_validation vv df false).df shpValueFields).1) = true
  · simp [h]
  · simp only [Bool.not_eq_true] at h
    simp [h]

theorem foldl_pyOr_falsy (vv : List String) (l : List (List Row)) :
    ∀ acc : Option Bool, pyTruthy acc = false →
      pyTruthy (l.foldl (fun acc df => pyOr acc (export_patches_shp vv df).1) acc) = false := by
  induction l with
  | nil => intro acc h; simpa using h
  | cons df l ih =>
      intro acc h
      apply ih
      simp only [pyOr, h, Bool.false_eq_true, if_false]
      rcases export_patches_shp_ret vv df with h1 | h1 <;> simp [h1, pyTruthy]

theorem foldl_or_false {α : Type} (f : α → Bool) (l : List α) (hf : ∀ x ∈ l, f x = false) :
    l.foldl (fun acc x => acc || f x) false = false := by
  induction l with
  | nil => rfl
  | cons x l ih =>
      simp only [List.foldl_cons, hf x (by simp)]
      exact ih (fun y hy => hf y (by simp [hy]))

/-- C10: export_patches_shp never returns True (it returns None whenever the
shapefile is refused, and False on success), so in any run of the export
driver in which every requested CSV export succeeds, the aggregated flag
stays falsy and the final ExecuteError is never raised, no matter how many
shapefile exports were refused. -/
theorem c10_shp_returns_none_driver_silent :
    (∀ (vv : List String) (df : List Row),
        (export_patches_shp vv df).1 = none ∨ (export_patches_shp vv df).1 = some false) ∧
    (∀ (vv : List String) (df : List Row),
        (export_patches_shp vv df).2 = none → (export_patches_shp vv df).1 = none) ∧
    (∀ (vv : List String) (exportCsv : Bool) (datasets : List (List Row)),
        (∀ df ∈ datasets, exportCsv = true → (export_patches_csv vv df).1 = false) →
        (exportDriver vv exportCsv true datasets).raisesError = false) := by
  refine ⟨export_patches_shp_ret, fun vv df h => ?_, fun vv exportCsv datasets h => ?_⟩
  · unfold export_patches_shp at h ⊢
    by_cases hb : ((primary_validation vv df false).noExport ||
        (check_fields_have_values (primary_validation vv df false).df shpValueFields).1) = true
    · simp [hb]
    · simp only [Bool.not_eq_true] at hb
      simp [hb] at h
  · unfold exportDriver
    have hgee : pyTruthy (datasets.foldl
        (fun acc df => pyOr acc (export_patches_shp vv df).1) (some false)) = false :=
      foldl_pyOr_falsy vv datasets (some false) rfl
    cases exportCsv
    · simp [hgee]
    · have hcsv : datasets.foldl
          (fun acc df => acc || (export_patches_csv vv df).1) false = false :=
        foldl_or_false (fun df => (export_patches_csv vv df).1) datasets
          (fun df hdf => h df hdf rfl)
      simp [hgee, hcsv]

/-- Witness for C10: a run that refuses its only shapefile export (the
Confidence-1/null-AltType record) still ends with raisesError = false. -/
theorem c10_shp_returns_none_driver_silent_witness :
    (export_patches_shp c1ValidValues c9df).2 = none ∧
      (exportDriver c1ValidValues false true [c9df]).raisesError = false :=
  ⟨by decide, c10_shp_returns_none_driver_silent.2.2 c1ValidValues false [c9df]
    (fun _ _ hfalse => absurd hfalse (by decide))⟩

/- Supporting lemmas for the coordinate deriver (C5). -/

theorem coordOnly_setCentralIf (sel : Nat → Bool) : CoordOnly (setCentralIf sel) := by
  intro p
  unfold setCentralIf
  split <;> rfl

theorem coordOnly_centroidIf (b : Nat) :
    CoordOnly (fun p =>
      if p.annualID = b then { p with coord := some CoordMethod.centroid } else p) := by
  intro p
  dsimp only
  split <;> rfl

theorem coordOnly_annualID {g : APatch → APatch} (hg : CoordOnly g) (p : APatch) :
    (g p).annualID = p.annualID := by
  rw [hg p]

theorem coordOnly_bad {g : APatch → APatch} (hg : CoordOnly g) (p : APatch) :
    (g p).bad = p.bad := by
  rw [hg p]

theorem coordOnly_coordType {g : APatch → APatch} (hg : CoordOnly g) (p : APatch) :
    (g p).coordType = p.coordType := by
  rw [hg p]

theorem coordOnly_setExpected {g : APatch → APatch} (hg : CoordOnly g) (p : APatch) :
    setExpected (g p) = setExpected p := by
  rw [hg p]
  rfl

theorem ids_map_of_id_pres {g : APatch → APatch}
    (hg : ∀ p, (g p).annualID = p.annualID) (l : List APatch) :
    (l.map g).map (fun p => p.annualID) = l.map (fun p => p.annualID) := by
  rw [List.map_map]
  exact List.map_congr_left (fun p _ => hg p)

theorem badIds_map_of_pres {g : APatch → APatch}
    (hg : ∀ p, (g p).annualID = p.annualID) (hb : ∀ p, (g p).bad = p.bad)
    (l : List APatch) : badIds (l.map g) = badIds l := by
  unfold badIds
  rw [List.filter_map]
  have h1 : l.filter ((fun p => p.bad) ∘ g) = l.filter (fun p => p.bad) :=
    List.filter_congr (fun p _ => by simp [Function.comp, hb p])
  rw [h1, List.map_map]
  exact List.map_congr_left (fun p _ => hg p)

theorem badIdsLe_map_of_pres {g : APatch → APatch}
    (hg : ∀ p, (g p).annualID = p.annualID) (hb : ∀ p, (g p).bad = p.bad)
    (l : List APatch) (a : Nat) : badIdsLe (l.map g) a = badIdsLe l a := by
  unfold badIdsLe
  rw [List.filter_map]
  have h1 : l.filter ((fun p => p.bad && p.annualID ≤ a) ∘ g) =
      l.filter (fun p => p.bad && p.annualID ≤ a) :=
    List.filter_congr (fun p _ => by simp [Function.comp, hb p, hg p])
  rw [h1, List.map_map]
  exact List.map_congr_left (fun p _ => hg p)

theorem any_maxbad_map_of_pres {g : APatch → APatch}
    (hg : ∀ p, (g p).annualID = p.annualID) (hb : ∀ p, (g p).bad = p.bad)
    (l : List APatch) (m : Nat) :
    (l.map g).any (fun p => p.annualID = m && p.bad) =
      l.any (fun p => p.annualID = m && p.bad) := by
  induction l with
  | nil => rfl
  | cons p l ih => simp [List.any_cons, ih, hg p, hb p]

theorem idsSorted_iff (l : List APatch) :
    idsSorted l ↔ (l.map (fun p => p.annualID)).Pairwise (· < ·) := by
  unfold idsSorted
  rw [List.pairwise_map]

theorem idsSorted_unique_id {l : List APatch} (hs : idsSorted l) {p q : APatch}
    (hp : p ∈ l) (hq : q ∈ l) (hid : p.annualID = q.annualID) : p = q := by
  induction l with
  | nil => exact absurd hp (List.not_mem_nil p)
  | cons x l ih =>
      rw [idsSorted] at hs
      rw [List.pairwise_cons] at hs
      rcases List.mem_cons.mp hp with rfl | hp' <;> rcases List.mem_cons.mp hq with rfl | hq'
      · rfl
      · exact absurd (hid ▸ hs.1 q hq') (lt_irrefl _)
      · exact absurd (hid ▸ hs.1 p hp') (by omega)
      · exact ih hs.2 hp' hq'

theorem foldl_max_le_acc (xs : List Nat) (a : Nat) : a ≤ xs.foldl max a := by
  induction xs generalizing a with
  | nil => exact le_refl a
  | cons x xs ih => exact le_trans (le_max_left a x) (ih (max a x))

theorem le_foldl_max (xs : List Nat) : ∀ (a x : Nat), x ∈ xs → x ≤ xs.foldl max a := by
  induction xs with
  | nil => intro a x hx; exact absurd hx (List.not_mem_nil x)
  | cons y ys ih =>
      intro a x hx
      rcases List.mem_cons.mp hx with rfl | hx'
      · exact le_trans (le_max_right a x) (foldl_max_le_acc ys (max a x))
      · exact ih (max a y) x hx'

theorem foldl_max_cases (xs : List Nat) :
    ∀ (a : Nat), xs.foldl max a = a ∨ xs.foldl max a ∈ xs := by
  induction xs with
  | nil => intro a; exact Or.inl rfl
  | cons x xs ih =>
      intro a
      rw [List.foldl_cons]
      rcases ih (max a x) with h | h
      · rcases max_cases a x with ⟨hm, _⟩ | ⟨hm, _⟩
        · exact Or.inl (by rw [h, hm])
        · exact Or.inr (by rw [h, hm]; exact List.mem_cons_self x xs)
      · exact Or.inr (List.mem_cons_of_mem x h)

theorem le_listMax (l : List Nat) (x : Nat) (hx : x ∈ l) : x ≤ listMax l := by
  cases l with
  | nil => exact absurd hx (List.not_mem_nil x)
  | cons y ys =>
      rcases List.mem_cons.mp hx with rfl | hx'
      · exact foldl_max_le_acc ys x
      · exact le_foldl_max ys y x hx'

theorem listMax_mem (l : List Nat) (h : l ≠ []) : listMax l ∈ l := by
  cases l with
  | nil => exact absurd rfl h
  | cons y ys =>
      rcases foldl_max_cases ys y with h1 | h1
      · rw [listMax, h1]; exact List.mem_cons_self y ys
      · rw [listMax]; exact List.mem_cons_of_mem y h1

theorem calcInside_cons (sel : Nat → Bool) (p : APatch) (l : List APatch) :
    calcInside sel (p :: l) =
      if sel p.annualID then
        if p.bad then (p :: l, false)
        else (({ p with coord := some CoordMethod.central } : APatch) :: (calcInside sel l).1,
          (calcInside sel l).2)
      else (p :: (calcInside sel l).1, (calcInside sel l).2) := rfl

theorem calcInside_all_good (sel : Nat → Bool) (l : List APatch)
    (h : ∀ p ∈ l, sel p.annualID = true → p.bad = false) :
    calcInside sel l = (l.map (setCentralIf sel), true) := by
  induction l with
  | nil => rfl
  | cons p l ih =>
      rw [calcInside_cons, ih (fun q hq hsq => h q (List.mem_cons_of_mem p hq) hsq)]
      by_cases hs : sel p.annualID = true
      · rw [if_pos hs, if_neg (by rw [h p (List.mem_cons_self p l) hs]; simp)]
        simp [setCentralIf, hs]
      · rw [if_neg hs]
        simp [setCentralIf, hs]

theorem calcInside_append_good (sel : Nat → Bool) (pre rest : List APatch)
    (h : ∀ p ∈ pre, sel p.annualID = true → p.bad = false) :
    calcInside sel (pre ++ rest) =
      (pre.map (setCentralIf sel) ++ (calcInside sel rest).1, (calcInside sel rest).2) := by
  induction pre with
  | nil => simp
  | cons p pre ih =>
      rw [List.cons_append, calcInside_cons,
        ih (fun q hq hsq => h q (List.mem_cons_of_mem p hq) hsq)]
      by_cases hs : sel p.annualID = true
      · rw [if_pos hs, if_neg (by rw [h p (List.mem_cons_self p pre) hs]; simp)]
        simp [setCentralIf, hs]
      · rw [if_neg hs]
        simp [setCentralIf, hs]

theorem calcInside_cons_bad (sel : Nat → Bool) (b : APatch) (post : List APatch)
    (hs : sel b.annualID = true) (hb : b.bad = true) :
    calcInside sel (b :: post) = (b :: post, false) := by
  rw [calcInside_cons, if_pos hs, if_pos hb]

theorem first_bad_decomp (sel : Nat → Bool) (l : List APatch)
    (h : ∃ p ∈ l, sel p.annualID = true ∧ p.bad = true) :
    ∃ pre b post, l = pre ++ b :: post ∧
      (∀ p ∈ pre, sel p.annualID = true → p.bad = false) ∧
      sel b.annualID = true ∧ b.bad = true := by
  induction l with
  | nil => simp at h
  | cons p l ih =>
      by_cases hp : sel p.annualID = true ∧ p.bad = true
      · exact ⟨[], p, l, rfl, by simp, hp.1, hp.2⟩
      · obtain ⟨q, hq, hq2⟩ := h
        rcases List.mem_cons.mp hq with rfl | hq'
        · exact absurd hq2 hp
        · obtain ⟨pre, b, post, heq, hpre, hsb, hbb⟩ := ih ⟨q, hq', hq2⟩
          refine ⟨p :: pre, b, post, by rw [heq, List.cons_append], ?_, hsb, hbb⟩
          intro x hx hsx
          rcases List.mem_cons.mp hx with rfl | hx'
          · rcases Bool.eq_false_or_eq_true x.bad with hb | hb
            · exact absurd ⟨hsx, hb⟩ hp
            · exact hb
          · exact hpre x hx' hsx

theorem firstNullId_append_some (l1 : List APatch) (b : APatch) (l2 : List APatch)
    (h1 : ∀ p ∈ l1, p.coord ≠ none) (hb : b.coord = none) :
    firstNullId (l1 ++ b :: l2) = some b.annualID := by
  unfold firstNullId
  rw [List.find?_append]
  have hn : l1.find? (fun p => p.coord = none) = none :=
    List.find?_eq_none.mpr (fun p hp => by simp [h1 p hp])
  rw [hn, Option.none_or, List.find?_cons_of_pos _ (by simp [hb])]
  rfl

theorem calcCentroid_eq (bid : Nat) (l1 : List APatch) (b : APatch) (l2 : List APatch)
    (h1 : ∀ p ∈ l1, p.annualID ≠ bid) (h2 : ∀ p ∈ l2, p.annualID ≠ bid)
    (hb : b.annualID = bid) :
    calcCentroid bid (l1 ++ b :: l2) =
      l1 ++ { b with coord := some CoordMethod.centroid } :: l2 := by
  unfold calcCentroid
  rw [List.map_append, List.map_cons]
  congr 1
  · rw [List.map_congr_left (fun p hp => if_neg (h1 p hp))]
    exact List.map_id' l1
  · congr 1
    · rw [if_pos hb]
    · rw [List.map_congr_left (fun p hp => if_neg (h2 p hp))]
      exact List.map_id' l2

theorem map_setExpected_eq_self (fc : List APatch)
    (h : ∀ p ∈ fc, p.coord = expectedCoord p) : fc.map setExpected = fc := by
  have h2 : ∀ p ∈ fc, setExpected p = (fun p => p) p := by
    intro p hp
    unfold setExpected
    rw [← h p hp]
  calc fc.map setExpected = fc.map (fun p => p) := List.map_congr_left h2
    _ = fc := List.map_id' fc

theorem badIds_append (l1 l2 : List APatch) :
    badIds (l1 ++ l2) = badIds l1 ++ badIds l2 := by
  unfold badIds
  rw [List.filter_append, List.map_append]

theorem badIds_cons (x : APatch) (l : List APatch) :
    badIds (x :: l) = if x.bad then x.annualID :: badIds l else badIds l := by
  unfold badIds
  rw [List.filter_cons]
  by_cases hb : x.bad = true
  · rw [if_pos hb, if_pos hb, List.map_cons]
  · rw [if_neg hb, if_neg hb]

theorem badIdsLe_append (l1 l2 : List APatch) (a : Nat) :
    badIdsLe (l1 ++ l2) a = badIdsLe l1 a ++ badIdsLe l2 a := by
  unfold badIdsLe
  rw [List.filter_append, List.map_append]

theorem badIdsLe_cons (x : APatch) (l : List APatch) (a : Nat) :
    badIdsLe (x :: l) a =
      if x.bad && x.annualID ≤ a then x.annualID :: badIdsLe l a else badIdsLe l a := by
  unfold badIdsLe
  rw [List.filter_cons]
  by_cases hb : (x.bad && decide (x.annualID ≤ a)) = true
  · rw [if_pos hb, if_pos hb, List.map_cons]
  · rw [if_neg hb, if_neg hb]

theorem badIdsLe_eq_nil_of_gt (l : List APatch) (a : Nat)
    (h : ∀ p ∈ l, a < p.annualID) : badIdsLe l a = [] := by
  unfold badIdsLe
  rw [List.filter_eq_nil_iff.mpr (fun p hp => by simp [Nat.not_le.mpr (h p hp)])]
  rfl

theorem badIdsLe_eq_badIds_of_bad_le (fc : List APatch) (a : Nat)
    (h : ∀ p ∈ fc, p.bad = true → p.annualID ≤ a) : badIdsLe fc a = badIds fc := by
  unfold badIdsLe badIds
  congr 1
  apply List.filter_congr
  intro p hp
  cases hb : p.bad
  · simp
  · simp [h p hp hb]

theorem addAlbersRec_eq (maxAid fuel : Nat) (fc : List APatch) (aId : Nat)
    (acc : List Nat) :
    addAlbersRec maxAid fuel fc aId acc =
      (if aId = maxAid then (fc, acc ++ [aId], some (acc ++ [aId]))
       else
        match fuel with
        | 0 => (fc, acc ++ [aId], none)
        | fuel + 1 =>
          let r := calcInside (fun i => aId < i) fc
          if r.2 then (r.1, acc ++ [aId], none)
          else
            match firstNullId r.1 with
            | none => (r.1, acc ++ [aId], none)
            | some b => addAlbersRec maxAid fuel (calcCentroid b r.1) b (acc ++ [aId])) := by
  cases fuel <;> rfl

theorem addAlbersRec_spec_max (maxAid fuel : Nat) (fc : List APatch) (aId : Nat)
    (acc : List Nat)
    (hmx : aId = maxAid)
    (hmax : maxAid = listMax (fc.map (fun p => p.annualID)))
    (hmem : ∃ pa ∈ fc, pa.annualID = aId ∧ pa.bad = true)
    (H1 : ∀ p ∈ fc, p.annualID ≤ aId → p.coord = expectedCoord p)
    (H3 : acc ++ [aId] = badIdsLe fc aId) :
    addAlbersRec maxAid fuel fc aId acc =
      (fc.map setExpected, badIds fc,
        if fc.any (fun p => p.annualID = maxAid && p.bad) then some (badIds fc)
        else none) := by
  have hall : ∀ p ∈ fc, p.annualID ≤ aId := by
    intro p hp
    rw [hmx, hmax]
    exact le_listMax _ _ (List.mem_map_of_mem (fun p => p.annualID) hp)
  have hexp : ∀ p ∈ fc, p.coord = expectedCoord p := fun p hp => H1 p hp (hall p hp)
  have hmap : fc.map setExpected = fc := map_setExpected_eq_self fc hexp
  have hble : badIdsLe fc aId = badIds fc :=
    badIdsLe_eq_badIds_of_bad_le fc aId (fun p hp _ => hall p hp)
  have hany : fc.any (fun p => p.annualID = maxAid && p.bad) = true := by
    obtain ⟨pa, hpa, hid, hbad⟩ := hmem
    refine List.any_eq_true.mpr ⟨pa, hpa, ?_⟩
    rw [hid, hmx]
    simp [hbad]
  rw [addAlbersRec_eq, if_pos hmx, hany, hmap, H3, hble]
  simp

theorem addAlbersRec_spec (maxAid : Nat) :
    ∀ (fuel : Nat) (fc : List APatch) (aId : Nat) (acc : List Nat),
      idsSorted fc →
      maxAid = listMax (fc.map (fun p => p.annualID)) →
      (∃ pa ∈ fc, pa.annualID = aId ∧ pa.bad = true) →
      (∀ p ∈ fc, p.annualID ≤ aId → p.coord = expectedCoord p) →
      (∀ p ∈ fc, aId < p.annualID → p.coord = none) →
      acc ++ [aId] = badIdsLe fc aId →
      (fc.filter (fun p => aId < p.annualID)).length ≤ fuel →
      addAlbersRec maxAid fuel fc aId acc =
        (fc.map setExpected, badIds fc,
          if fc.any (fun p => p.annualID = maxAid && p.bad) then some (badIds fc)
          else none) := by
  intro fuel
  induction fuel with
  | zero =>
      intro fc aId acc hsort hmax hmem H1 H2 H3 H4
      by_cases hmx : aId = maxAid
      · exact addAlbersRec_spec_max maxAid 0 fc aId acc hmx hmax hmem H1 H3
      · exfalso
        obtain ⟨pa, hpa, hpaid, _⟩ := hmem
        have hIdmem : aId ∈ fc.map (fun p => p.annualID) :=
          hpaid ▸ List.mem_map_of_mem (fun p => p.annualID) hpa
        have hne : fc.map (fun p => p.annualID) ≠ [] := List.ne_nil_of_mem hIdmem
        have hmaxmem : maxAid ∈ fc.map (fun p => p.annualID) := hmax ▸ listMax_mem _ hne
        obtain ⟨pm, hpm, hpmid⟩ := List.mem_map.mp hmaxmem
        have haIdle : aId ≤ maxAid := hmax ▸ le_listMax _ _ hIdmem
        have hlt : aId < pm.annualID := by omega
        have hmem2 : pm ∈ fc.filter (fun p => aId < p.annualID) :=
          List.mem_filter.mpr ⟨hpm, by simp [hlt]⟩
        have h0 : (fc.filter (fun p => aId < p.annualID)).length = 0 := Nat.le_zero.mp H4
        rw [List.length_eq_zero] at h0
        rw [h0] at hmem2
        exact List.not_mem_nil pm hmem2
  | succ fuel ih =>
      intro fc aId acc hsort hmax hmem H1 H2 H3 H4
      by_cases hmx : aId = maxAid
      · exact addAlbersRec_spec_max maxAid (fuel + 1) fc aId acc hmx hmax hmem H1 H3
      rw [addAlbersRec_eq, if_neg hmx]
      dsimp only
      by_cases hbad : ∃ p ∈ fc, decide (aId < p.annualID) = true ∧ p.bad = true
      case neg =>
        have hgood : ∀ p ∈ fc, decide (aId < p.annualID) = true → p.bad = false := by
          intro p hp hd
          rcases Bool.eq_false_or_eq_true p.bad with hb | hb
          · exact absurd ⟨p, hp, hd, hb⟩ hbad
          · exact hb
        rw [calcInside_all_good (fun i => decide (aId < i)) fc hgood]
        dsimp only
        rw [if_pos rfl]
        have hmapeq : fc.map (setCentralIf (fun i => decide (aId < i))) =
            fc.map setExpected := by
          apply List.map_congr_left
          intro p hp
          unfold setCentralIf
          by_cases hs : decide (aId < p.annualID) = true
          · rw [if_pos hs]
            unfold setExpected expectedCoord
            simp [hgood p hp hs]
          · rw [if_neg hs]
            have hle : p.annualID ≤ aId := Nat.le_of_not_lt (by simpa using hs)
            unfold setExpected
            rw [← H1 p hp hle]
        have hacc : acc ++ [aId] = badIds fc := by
          rw [H3]
          apply badIdsLe_eq_badIds_of_bad_le
          intro p hp hb
          by_contra hgt
          have hgt2 : aId < p.annualID := Nat.lt_of_not_le hgt
          have hcontra := hgood p hp (decide_eq_true hgt2)
          rw [hb] at hcontra
          exact absurd hcontra (by simp)
        have hany : fc.any (fun p => p.annualID = maxAid && p.bad) = false := by
          rw [List.any_eq_false]
          intro p hp
          simp only [Bool.and_eq_true, decide_eq_true_eq, not_and]
          intro hid
          have hIdmem : aId ∈ fc.map (fun p => p.annualID) := by
            obtain ⟨pa, hpa, hpaid, _⟩ := hmem
            exact hpaid ▸ List.mem_map_of_mem (fun p => p.annualID) hpa
          have haIdle : aId ≤ maxAid := hmax ▸ le_listMax _ _ hIdmem
          have hlt : aId < p.annualID := by omega
          rw [hgood p hp (decide_eq_true hlt)]
          simp
        rw [hmapeq, hacc, hany]
        simp
      case pos =>
        obtain ⟨pre, b, post, heq, hpre, hsb, hbb⟩ :=
          first_bad_decomp (fun i => decide (aId < i)) fc hbad
        subst heq
        have haltb : aId < b.annualID := of_decide_eq_true hsb
        have hsort' := hsort
        rw [idsSorted, List.pairwise_append, List.pairwise_cons] at hsort'
        obtain ⟨hsortPre, ⟨hbpost, hsortPost⟩, hcross⟩ := hsort'
        have hpreltb : ∀ p ∈ pre, p.annualID < b.annualID :=
          fun p hp => hcross p hp b (List.mem_cons_self b post)
        rw [calcInside_append_good (fun i => decide (aId < i)) pre (b :: post) hpre,
          calcInside_cons_bad (fun i => decide (aId < i)) b post hsb hbb]
        dsimp only
        rw [if_neg (by simp)]
        have hprecoord : ∀ p ∈ pre.map (setCentralIf (fun i => decide (aId < i))),
            p.coord ≠ none := by
          intro p hp
          obtain ⟨q, hq, rfl⟩ := List.mem_map.mp hp
          unfold setCentralIf
          by_cases hs : decide (aId < q.annualID) = true
          · rw [if_pos hs]
            simp
          · rw [if_neg hs]
            have hle : q.annualID ≤ aId := Nat.le_of_not_lt (by simpa using hs)
            rw [H1 q (List.mem_append_left (b :: post) hq) hle]
            unfold expectedCoord
            simp
        have hbcoord : b.coord = none :=
          H2 b (List.mem_append_right pre (List.mem_cons_self b post)) haltb
        rw [firstNullId_append_some (pre.map (setCentralIf (fun i => decide (aId < i)))) b
          post hprecoord hbcoord]
        dsimp only
        rw [calcCentroid_eq b.annualID (pre.map (setCentralIf (fun i => decide (aId < i)))) b
          post
          (fun p hp => by
            obtain ⟨q, hq, rfl⟩ := List.mem_map.mp hp
            rw [coordOnly_annualID (coordOnly_setCentralIf _) q]
            exact Nat.ne_of_lt (hpreltb q hq))
          (fun p hp => (hbpost p hp).ne')
          rfl]
        have hgid : ∀ p, ((setCentralIf (fun i => decide (aId < i))) p).annualID = p.annualID :=
          fun p => coordOnly_annualID (coordOnly_setCentralIf _) p
        have hgbad : ∀ p, ((setCentralIf (fun i => decide (aId < i))) p).bad = p.bad :=
          fun p => coordOnly_bad (coordOnly_setCentralIf _) p
        have hids2 : (pre.map (setCentralIf (fun i => decide (aId < i))) ++
              ({ b with coord := some CoordMethod.centroid } : APatch) :: post).map
              (fun p => p.annualID) =
            (pre ++ b :: post).map (fun p => p.annualID) := by
          rw [List.map_append, List.map_append, List.map_cons, List.map_cons,
            ids_map_of_id_pres hgid pre]
        have hsort2 : idsSorted (pre.map (setCentralIf (fun i => decide (aId < i))) ++
            ({ b with coord := some CoordMethod.centroid } : APatch) :: post) := by
          rw [idsSorted_iff, hids2, ← idsSorted_iff]
          exact hsort
        have hmax2 : maxAid = listMax
            ((pre.map (setCentralIf (fun i => decide (aId < i))) ++
              ({ b with coord := some CoordMethod.centroid } : APatch) :: post).map
              (fun p => p.annualID)) := by
          rw [hids2]
          exact hmax
        have hmem2 : ∃ pa ∈ pre.map (setCentralIf (fun i => decide (aId < i))) ++
            ({ b with coord := some CoordMethod.centroid } : APatch) :: post,
            pa.annualID = b.annualID ∧ pa.bad = true :=
          ⟨{ b with coord := some CoordMethod.centroid },
            List.mem_append_right _ (List.mem_cons_self _ post), rfl, hbb⟩
        have H1' : ∀ p ∈ pre.map (setCentralIf (fun i => decide (aId < i))) ++
            ({ b with coord := some CoordMethod.centroid } : APatch) :: post,
            p.annualID ≤ b.annualID → p.coord = expectedCoord p := by
          intro p hp hple
          rcases List.mem_append.mp hp with hp1 | hp2
          · obtain ⟨q, hq, rfl⟩ := List.mem_map.mp hp1
            unfold setCentralIf
            by_cases hs : decide (aId < q.annualID) = true
            · rw [if_pos hs]
              unfold expectedCoord
              simp [hpre q hq hs]
            · rw [if_neg hs]
              have hle : q.annualID ≤ aId := Nat.le_of_not_lt (by simpa using hs)
              exact H1 q (List.mem_append_left (b :: post) hq) hle
          · rcases List.mem_cons.mp hp2 with rfl | hp3
            · unfold expectedCoord
              simp [hbb]
            · exfalso
              have := hbpost p hp3
              omega
        have H2' : ∀ p ∈ pre.map (setCentralIf (fun i => decide (aId < i))) ++
            ({ b with coord := some CoordMethod.centroid } : APatch) :: post,
            b.annualID < p.annualID → p.coord = none := by
          intro p hp hpgt
          rcases List.mem_append.mp hp with hp1 | hp2
          · obtain ⟨q, hq, rfl⟩ := List.mem_map.mp hp1
            rw [hgid q] at hpgt
            have := hpreltb q hq
            omega
          · rcases List.mem_cons.mp hp2 with rfl | hp3
            · exact absurd hpgt (lt_irrefl b.annualID)
            · exact H2 p (List.mem_append_right pre (List.mem_cons_of_mem b hp3))
                (Nat.lt_trans haltb (hbpost p hp3))
        have hpreb : ∀ p ∈ pre, p.bad = true → p.annualID ≤ aId := by
          intro p hp hb
          by_contra hgt
          have hlt2 : aId < p.annualID := Nat.lt_of_not_le hgt
          have hcontra := hpre p hp (decide_eq_true hlt2)
          rw [hb] at hcontra
          exact absurd hcontra (by simp)
        have H3' : (acc ++ [aId]) ++ [b.annualID] =
            badIdsLe (pre.map (setCentralIf (fun i => decide (aId < i))) ++
              ({ b with coord := some CoordMethod.centroid } : APatch) :: post)
              b.annualID := by
          rw [badIdsLe_append, badIdsLe_cons]
          rw [if_pos (by simp [hbb])]
          rw [badIdsLe_eq_nil_of_gt post b.annualID (fun p hp => hbpost p hp)]
          have hpreeq : badIdsLe (pre.map (setCentralIf (fun i => decide (aId < i))))
              b.annualID = badIdsLe pre aId := by
            rw [badIdsLe_map_of_pres hgid hgbad pre]
            unfold badIdsLe
            congr 1
            apply List.filter_congr
            intro p hp
            cases hb : p.bad
            · simp
            · have hle : p.annualID ≤ aId := hpreb p hp hb
              have hle2 : p.annualID ≤ b.annualID := by omega
              simp [hle, hle2]
          rw [hpreeq]
          have hfc3 : acc ++ [aId] = badIdsLe pre aId := by
            rw [H3, badIdsLe_append, badIdsLe_cons]
            rw [if_neg (by simp [Nat.not_le.mpr haltb])]
            rw [badIdsLe_eq_nil_of_gt post aId
              (fun p hp => Nat.lt_trans haltb (hbpost p hp))]
            simp
          rw [← hfc3]
        have H4' : ((pre.map (setCentralIf (fun i => decide (aId < i))) ++
            ({ b with coord := some CoordMethod.centroid } : APatch) :: post).filter
            (fun p => decide (b.annualID < p.annualID))).length ≤ fuel := by
          rw [List.filter_append, List.filter_cons]
          rw [if_neg (by simp)]
          have hf1 : (pre.map (setCentralIf (fun i => decide (aId < i)))).filter
              (fun p => decide (b.annualID < p.annualID)) = [] :=
            List.filter_eq_nil_iff.mpr (fun p hp => by
              obtain ⟨q, hq, rfl⟩ := List.mem_map.mp hp
              have := hpreltb q hq
              simp [hgid q]
              omega)
          have hf2 : post.filter (fun p => decide (b.annualID < p.annualID)) = post :=
            List.filter_eq_self.mpr (fun p hp => by simp [hbpost p hp])
          rw [hf1, hf2]
          have hH4 := H4
          rw [List.filter_append, List.filter_cons] at hH4
          rw [if_pos (by simp [haltb])] at hH4
          have hf3 : post.filter (fun p => decide (aId < p.annualID)) = post :=
            List.filter_eq_self.mpr
              (fun p hp => by simp [Nat.lt_trans haltb (hbpost p hp)])
          rw [hf3] at hH4
          simp only [List.nil_append, List.length_append, List.length_cons] at hH4 ⊢
          omega
        rw [ih (pre.map (setCentralIf (fun i => decide (aId < i))) ++
            ({ b with coord := some CoordMethod.centroid } : APatch) :: post)
          b.annualID (acc ++ [aId]) hsort2 hmax2 hmem2 H1' H2' H3' H4']
        have hT1 : (pre.map (setCentralIf (fun i => decide (aId < i))) ++
              ({ b with coord := some CoordMethod.centroid } : APatch) :: post).map
              setExpected =
            (pre ++ b :: post).map setExpected := by
          rw [List.map_append, List.map_append, List.map_cons, List.map_cons, List.map_map]
          congr 1
          exact List.map_congr_left
            (fun p _ => coordOnly_setExpected (coordOnly_setCentralIf _) p)
        have hT2 : badIds (pre.map (setCentralIf (fun i => decide (aId < i))) ++
              ({ b with coord := some CoordMethod.centroid } : APatch) :: post) =
            badIds (pre ++ b :: post) := by
          rw [badIds_append, badIds_append, badIds_cons, badIds_cons,
            badIds_map_of_pres hgid hgbad pre]
        have hT3 : (pre.map (setCentralIf (fun i => decide (aId < i))) ++
              ({ b with coord := some CoordMethod.centroid } : APatch) :: post).any
              (fun p => p.annualID = maxAid && p.bad) =
            (pre ++ b :: post).any (fun p => p.annualID = maxAid && p.bad) := by
          rw [List.any_append, List.any_append, List.any_cons, List.any_cons,
            any_maxbad_map_of_pres hgid hgbad pre maxAid]
        rw [hT1, hT2, hT3]

theorem add_albers_spec (fc : List APatch) (hsort : idsSorted fc)
    (hinit : ∀ p ∈ fc, p.coord = none) :
    add_albers fc =
      ⟨fc.map setExpected,
        if badIds fc = [] then none else some (badIds fc),
        if fc.any (fun p => p.annualID = listMax (fc.map (fun p => p.annualID)) && p.bad)
          then some (badIds fc) else none⟩ := by
  unfold add_albers
  dsimp only
  by_cases hbad : ∃ p ∈ fc, p.bad = true
  case neg =>
    have hgood : ∀ p ∈ fc, p.bad = false := by
      intro p hp
      rcases Bool.eq_false_or_eq_true p.bad with hb | hb
      · exact absurd ⟨p, hp, hb⟩ hbad
      · exact hb
    rw [calcInside_all_good (fun _ => true) fc (fun p hp _ => hgood p hp)]
    dsimp only
    rw [if_pos rfl]
    have hmapeq : fc.map (setCentralIf (fun _ => true)) = fc.map setExpected := by
      apply List.map_congr_left
      intro p hp
      simp [setCentralIf, setExpected, expectedCoord, hgood p hp]
    have hbn : badIds fc = [] := by
      unfold badIds
      rw [List.filter_eq_nil_iff.mpr (fun p hp => by simp [hgood p hp])]
      rfl
    have hany : fc.any
        (fun p => p.annualID = listMax (fc.map (fun p => p.annualID)) && p.bad) = false := by
      rw [List.any_eq_false]
      intro p hp
      simp [hgood p hp]
    rw [hmapeq, hbn, hany]
    simp
  case pos =>
    obtain ⟨pa, hpa, hpabad⟩ := hbad
    obtain ⟨pre, b, post, heq, hpre, _, hbb⟩ :=
      first_bad_decomp (fun _ => true) fc ⟨pa, hpa, rfl, hpabad⟩
    subst heq
    have hsort' := hsort
    rw [idsSorted, List.pairwise_append, List.pairwise_cons] at hsort'
    obtain ⟨hsortPre, ⟨hbpost, hsortPost⟩, hcross⟩ := hsort'
    have hpreltb : ∀ p ∈ pre, p.annualID < b.annualID :=
      fun p hp => hcross p hp b (List.mem_cons_self b post)
    have hpregood : ∀ p ∈ pre, p.bad = false := fun p hp => hpre p hp rfl
    rw [calcInside_append_good (fun _ => true) pre (b :: post) hpre,
      calcInside_cons_bad (fun _ => true) b post rfl hbb]
    dsimp only
    rw [if_neg (by simp)]
    have hprecoord : ∀ p ∈ pre.map (setCentralIf (fun _ => true)), p.coord ≠ none := by
      intro p hp
      obtain ⟨q, hq, rfl⟩ := List.mem_map.mp hp
      unfold setCentralIf
      simp
    have hbcoord : b.coord = none :=
      hinit b (List.mem_append_right pre (List.mem_cons_self b post))
    rw [firstNullId_append_some (pre.map (setCentralIf (fun _ => true))) b post
      hprecoord hbcoord]
    dsimp only
    rw [calcCentroid_eq b.annualID (pre.map (setCentralIf (fun _ => true))) b post
      (fun p hp => by
        obtain ⟨q, hq, rfl⟩ := List.mem_map.mp hp
        rw [coordOnly_annualID (coordOnly_setCentralIf _) q]
        exact Nat.ne_of_lt (hpreltb q hq))
      (fun p hp => (hbpost p hp).ne')
      rfl]
    have hgid : ∀ p, ((setCentralIf (fun _ => true)) p).annualID = p.annualID :=
      fun p => coordOnly_annualID (coordOnly_setCentralIf _) p
    have hgbad : ∀ p, ((setCentralIf (fun _ => true)) p).bad = p.bad :=
      fun p => coordOnly_bad (coordOnly_setCentralIf _) p
    have hids2 : (pre.map (setCentralIf (fun _ => true)) ++
          ({ b with coord := some CoordMethod.centroid } : APatch) :: post).map
          (fun p => p.annualID) =
        (pre ++ b :: post).map (fun p => p.annualID) := by
      rw [List.map_append, List.map_append, List.map_cons, List.map_cons,
        ids_map_of_id_pres hgid pre]
    have hsort2 : idsSorted (pre.map (setCentralIf (fun _ => true)) ++
        ({ b with coord := some CoordMethod.centroid } : APatch) :: post) := by
      rw [idsSorted_iff, hids2, ← idsSorted_iff]
      exact hsort
    have hmax2 : listMax ((pre ++ b :: post).map (fun p => p.annualID)) =
        listMax ((pre.map (setCentralIf (fun _ => true)) ++
          ({ b with coord := some CoordMethod.centroid } : APatch) :: post).map
          (fun p => p.annualID)) := by
      rw [hids2]
    have hmem2 : ∃ pa ∈ pre.map (setCentralIf (fun _ => true)) ++
        ({ b with coord := some CoordMethod.centroid } : APatch) :: post,
        pa.annualID = b.annualID ∧ pa.bad = true :=
      ⟨{ b with coord := some CoordMethod.centroid },
        List.mem_append_right _ (List.mem_cons_self _ post), rfl, hbb⟩
    have H1' : ∀ p ∈ pre.map (setCentralIf (fun _ => true)) ++
        ({ b with coord := some CoordMethod.centroid } : APatch) :: post,
        p.annualID ≤ b.annualID → p.coord = expectedCoord p := by
      intro p hp hple
      rcases List.mem_append.mp hp with hp1 | hp2
      · obtain ⟨q, hq, rfl⟩ := List.mem_map.mp hp1
        unfold setCentralIf expectedCoord
        simp [hpregood q hq]
      · rcases List.mem_cons.mp hp2 with rfl | hp3
        · unfold expectedCoord
          simp [hbb]
        · exfalso
          have := hbpost p hp3
          omega
    have H2' : ∀ p ∈ pre.map (setCentralIf (fun _ => true)) ++
        ({ b with coord := some CoordMethod.centroid } : APatch) :: post,
        b.annualID < p.annualID → p.coord = none := by
      intro p hp hpgt
      rcases List.mem_append.mp hp with hp1 | hp2
      · obtain ⟨q, hq, rfl⟩ := List.mem_map.mp hp1
        rw [hgid q] at hpgt
        have := hpreltb q hq
        omega
      · rcases List.mem_cons.mp hp2 with rfl | hp3
        · exact absurd hpgt (lt_irrefl b.annualID)
        · exact hinit p (List.mem_append_right pre (List.mem_cons_of_mem b hp3))
    have H3' : ([] : List Nat) ++ [b.annualID] =
        badIdsLe (pre.map (setCentralIf (fun _ => true)) ++
          ({ b with coord := some CoordMethod.centroid } : APatch) :: post)
          b.annualID := by
      rw [badIdsLe_append, badIdsLe_cons]
      rw [if_pos (by simp [hbb])]
      rw [badIdsLe_eq_nil_of_gt post b.annualID (fun p hp => hbpost p hp)]
      have hpre0 : badIdsLe (pre.map (setCentralIf (fun _ => true))) b.annualID = [] := by
        rw [badIdsLe_map_of_pres hgid hgbad pre]
        unfold badIdsLe
        rw [List.filter_eq_nil_iff.mpr (fun p hp => by simp [hpregood p hp])]
        rfl
      rw [hpre0]
    have H4' : ((pre.map (setCentralIf (fun _ => true)) ++
        ({ b with coord := some CoordMethod.centroid } : APatch) :: post).filter
        (fun p => decide (b.annualID < p.annualID))).length ≤
        (pre ++ b :: post).length := by
      rw [List.filter_append, List.filter_cons]
      rw [if_neg (by simp)]
      have hf1 : (pre.map (setCentralIf (fun _ => true))).filter
          (fun p => decide (b.annualID < p.annualID)) = [] :=
        List.filter_eq_nil_iff.mpr (fun p hp => by
          obtain ⟨q, hq, rfl⟩ := List.mem_map.mp hp
          have := hpreltb q hq
          simp [hgid q]
          omega)
      have hf2 : post.filter (fun p => decide (b.annualID < p.annualID)) = post :=
        List.filter_eq_self.mpr (fun p hp => by simp [hbpost p hp])
      rw [hf1, hf2]
      simp only [List.nil_append, List.length_append, List.length_cons]
      omega
    rw [addAlbersRec_spec (listMax ((pre ++ b :: post).map (fun p => p.annualID)))
      (pre ++ b :: post).length
      (pre.map (setCentralIf (fun _ => true)) ++
        ({ b with coord := some CoordMethod.centroid } : APatch) :: post)
      b.annualID [] hsort2 hmax2 hmem2 H1' H2' H3' H4']
    have hT1 : (pre.map (setCentralIf (fun _ => true)) ++
          ({ b with coord := some CoordMethod.centroid } : APatch) :: post).map
          setExpected =
        (pre ++ b :: post).map setExpected := by
      rw [List.map_append, List.map_append, List.map_cons, List.map_cons, List.map_map]
      congr 1
    have hT2 : badIds (pre.map (setCentralIf (fun _ => true)) ++
          ({ b with coord := some CoordMethod.centroid } : APatch) :: post) =
        badIds (pre ++ b :: post) := by
      rw [badIds_append, badIds_append, badIds_cons, badIds_cons,
        badIds_map_of_pres hgid hgbad pre]
    have hT3 : (pre.map (setCentralIf (fun _ => true)) ++
          ({ b with coord := some CoordMethod.centroid } : APatch) :: post).any
          (fun p => p.annualID = listMax ((pre ++ b :: post).map (fun p => p.annualID)) &&
            p.bad) =
        (pre ++ b :: post).any
          (fun p => p.annualID = listMax ((pre ++ b :: post).map (fun p => p.annualID)) &&
            p.bad) := by
      rw [List.any_append, List.any_append, List.any_cons, List.any_cons,
        any_maxbad_map_of_pres hgid hgbad pre]
    rw [hT1, hT2, hT3]
    have hbne : badIds (pre ++ b :: post) ≠ [] := by
      rw [badIds_append, badIds_cons, if_pos hbb]
      simp
    rw [if_neg hbne]

theorem add_coords_spec (fc : List APatch) (hsort : idsSorted fc)
    (hinit : ∀ p ∈ fc, p.coord = none) :
    add_coords fc =
      ⟨fc.map (fun p => { p with
          coord := expectedCoord p
          coordType := some (if p.bad then "Centroid" else "Central point") }),
        if badIds fc = [] then none else some (badIds fc),
        if fc.any (fun p => p.annualID = listMax (fc.map (fun q => q.annualID)) && p.bad)
          then some (badIds fc) else none⟩ := by
  unfold add_coords
  dsimp only
  have hg0id : ∀ p : APatch,
      ((fun p : APatch => { p with coordType := some "Central point" }) p).annualID =
        p.annualID :=
    fun p => rfl
  have hg0bad : ∀ p : APatch,
      ((fun p : APatch => { p with coordType := some "Central point" }) p).bad = p.bad :=
    fun p => rfl
  have hids : (fc.map (fun p => { p with coordType := some "Central point" })).map
      (fun p => p.annualID) = fc.map (fun p => p.annualID) :=
    ids_map_of_id_pres hg0id fc
  have hsort' : idsSorted (fc.map (fun p => { p with coordType := some "Central point" })) := by
    rw [idsSorted_iff, hids, ← idsSorted_iff]
    exact hsort
  have hinit' : ∀ p ∈ fc.map (fun p => { p with coordType := some "Central point" }),
      p.coord = none := by
    intro p hp
    obtain ⟨q, hq, rfl⟩ := List.mem_map.mp hp
    exact hinit q hq
  rw [add_albers_spec (fc.map (fun p => { p with coordType := some "Central point" }))
    hsort' hinit']
  dsimp only
  have hbad_eq : badIds (fc.map (fun p => { p with coordType := some "Central point" })) =
      badIds fc := badIds_map_of_pres hg0id hg0bad fc
  have hany_eq : (fc.map (fun p => { p with coordType := some "Central point" })).any
      (fun p => p.annualID =
        listMax ((fc.map (fun p => { p with coordType := some "Central point" })).map
          (fun p => p.annualID)) && p.bad) =
      fc.any (fun p => p.annualID = listMax (fc.map (fun q => q.annualID)) && p.bad) := by
    rw [hids]
    exact any_maxbad_map_of_pres hg0id hg0bad fc _
  rw [hbad_eq, hany_eq]
  by_cases hb : badIds fc = []
  · rw [if_pos hb]
    dsimp only
    have hgood : ∀ p ∈ fc, p.bad = false := by
      intro p hp
      rcases Bool.eq_false_or_eq_true p.bad with hb1 | hb1
      · exfalso
        have : p.annualID ∈ badIds fc :=
          List.mem_map_of_mem _ (List.mem_filter.mpr ⟨hp, hb1⟩)
        rw [hb] at this
        exact List.not_mem_nil _ this
      · exact hb1
    have hmap : (fc.map (fun p => { p with coordType := some "Central point" })).map
        setExpected =
        fc.map (fun p => { p with
          coord := expectedCoord p
          coordType := some (if p.bad then "Centroid" else "Central point") }) := by
      rw [List.map_map]
      apply List.map_congr_left
      intro p hp
      unfold Function.comp setExpected expectedCoord
      simp [hgood p hp]
    rw [hmap]
  · rw [if_neg hb]
    dsimp only
    have hmap : ((fc.map (fun p => { p with coordType := some "Central point" })).map
          setExpected).map
        (fun p => if (badIds fc).contains p.annualID then
          { p with coordType := some "Centroid" } else p) =
        fc.map (fun p => { p with
          coord := expectedCoord p
          coordType := some (if p.bad then "Centroid" else "Central point") }) := by
      rw [List.map_map, List.map_map]
      apply List.map_congr_left
      intro p hp
      cases hbp : p.bad
      · have hnc : p.annualID ∉ badIds fc := by
          intro hc2
          obtain ⟨q, hq, hqid⟩ := List.mem_map.mp hc2
          have hq2 := List.mem_filter.mp hq
          have hqp : q = p := idsSorted_unique_id hsort hq2.1 hp hqid
          rw [hqp, hbp] at hq2
          exact absurd hq2.2 (by simp)
        simp [Function.comp, setExpected, expectedCoord, hnc, hbp]
      · have hc : p.annualID ∈ badIds fc :=
          List.mem_map_of_mem (fun q => q.annualID) (List.mem_filter.mpr ⟨hp, hbp⟩)
        simp [Function.comp, setExpected, expectedCoord, hc, hbp]
    rw [hmap]

/-- Counterexample to C5: on a two-patch dataset whose first patch (annualID
1) has a failing central-point geometry while the second (annualID 2, the
maximum) is fine, add_coords does fall back to the centroid for patch 1
(annualIds = [1], CoordType "Centroid"), but no warning is emitted at all:
the AddWarning call sits inside the `a_id == max_aid` branch of add_albers,
which is never reached when the maximum-annualID patch computes its central
point successfully, contradicting the claim that a warning always lists the
annualIDs of every patch that required the fallback. -/
theorem c5_counterexample :
    (add_coords [⟨1, true, none, none⟩, ⟨2, false, none, none⟩]).annualIds = some [1] ∧
    (add_coords [⟨1, true, none, none⟩, ⟨2, false, none, none⟩]).fc.map
      (fun p => p.coordType) = [some "Centroid", some "Central point"] ∧
    (add_coords [⟨1, true, none, none⟩, ⟨2, false, none, none⟩]).warning = none := by
  exact ⟨rfl, rfl, rfl⟩

/-- C5 amended: for every yearly dataset (feature order = ascending positive
annualIDs, coordinates not yet computed), add_coords never aborts: exactly
the patches with failing central-point geometry end with centroid-derived
coordinates and CoordType "Centroid" while all others keep central-point
coordinates and CoordType "Central point", and the returned fallback list is
exactly the failing annualIDs; the warning listing those annualIDs, however,
is emitted only when the patch bearing the maximum annualID itself required
the fallback, and otherwise no warning is emitted. -/
theorem c5_centroid_fallback_amended (fc : List APatch)
    (hsort : idsSorted fc) (_hpos : ∀ p ∈ fc, 1 ≤ p.annualID)
    (hinit : ∀ p ∈ fc, p.coord = none) :
    (∀ p ∈ (add_coords fc).fc,
        p.coord = expectedCoord p ∧
        p.coordType = some (if p.bad then "Centroid" else "Central point")) ∧
    (add_coords fc).annualIds = (if badIds fc = [] then none else some (badIds fc)) ∧
    (add_coords fc).warning =
      (if fc.any (fun p => p.annualID = listMax (fc.map (fun q => q.annualID)) && p.bad)
        then some (badIds fc) else none) := by
  rw [add_coords_spec fc hsort hinit]
  refine ⟨?_, rfl, rfl⟩
  intro p hp
  obtain ⟨q, hq, rfl⟩ := List.mem_map.mp hp
  exact ⟨rfl, rfl⟩

/-- Witness for C5 amended: a three-patch dataset whose middle patch fails;
the middle patch alone gets CoordType "Centroid", the fallback list is [2],
and no warning is emitted because the maximum annualID (3) succeeded. -/
theorem c5_centroid_fallback_amended_witness :
    (∀ p ∈ (add_coords [⟨1, false, none, none⟩, ⟨2, true, none, none⟩,
        ⟨3, false, none, none⟩]).fc,
      p.coord = expectedCoord p ∧
        p.coordType = some (if p.bad then "Centroid" else "Central point")) ∧
    (add_coords [⟨1, false, none, none⟩, ⟨2, true, none, none⟩,
        ⟨3, false, none, none⟩]).annualIds =
      (if badIds [⟨1, false, none, none⟩, ⟨2, true, none, none⟩,
          ⟨3, false, none, none⟩] = [] then none
        else some (badIds [⟨1, false, none, none⟩, ⟨2, true, none, none⟩,
          ⟨3, false, none, none⟩])) ∧
    (add_coords [⟨1, false, none, none⟩, ⟨2, true, none, none⟩,
        ⟨3, false, none, none⟩]).warning =
      (if ([⟨1, false, none, none⟩, ⟨2, true, none, none⟩,
            ⟨3, false, none, none⟩] : List APatch).any
          (fun p => p.annualID = listMax (([⟨1, false, none, none⟩, ⟨2, true, none, none⟩,
            ⟨3, false, none, none⟩] : List APatch).map (fun q => q.annualID)) && p.bad)
        then some (badIds [⟨1, false, none, none⟩, ⟨2, true, none, none⟩,
          ⟨3, false, none, none⟩])
        else none) :=
  c5_centroid_fallback_amended
    [⟨1, false, none, none⟩, ⟨2, true, none, none⟩, ⟨3, false, none, none⟩]
    (by unfold idsSorted; decide) (by decide) (by decide)

end LandscapeChange
